import Mathlib

/-!
Verification of the report-extraction-and-load pipeline of the
knowledge-tech-center repository (GA4 → BigQuery connectors), against its
natural-language specification.

The development shallowly embeds the relevant Python functions:

* `src/apis/ga4-campaign/ga4_extractor.py` — `camel_to_snake`,
  `generate_session_key`, the row construction of `run_report` (numeric
  coercion, custom-dimension filtering), the row enrichment of
  `extract_dimension`, and the batch loop of `extract_all_dimensions`;
* `src/apis/ga4-campaign/schemas.py` — `get_base_fields` and the full
  `DIMENSION_SCHEMAS` catalog;
* `src/apis/ga4-campaign/bigquery_client.py` — `delete_partition`,
  `insert_rows`, `load_report`;
* `src/apis/google-analytics-4/bigquery.py` — `BASE_SCHEMA`,
  `get_schema_for_report`, `insert_rows`, `delete_partition`,
  `table_exists`/`create_table`/`ensure_table_exists`,
  `load_report_to_bigquery`.

Modelling conventions:

* Python scalar values are the inductive `PyVal`; Python's `bool` is a
  subclass of `int`, so the embedded `isinstance(·, int)` test accepts
  booleans, exactly as CPython does.  Python floats are represented by
  exact rationals (`Rat`): the claims under study concern parse
  success/failure and result shape, never IEEE-754 rounding or range
  (a decimal literal that would overflow to `inf` is kept exact).
* Python dicts are association lists with first-match lookup and
  insert-or-overwrite update (`dictInsert` / `dictUpdate`), mirroring
  dict assignment and `dict.update`.
* External network calls (the BigQuery client object, the GA4 data
  client) are oracles supplied by an environment record: each call's
  outcome (success, returned error list, raised exception) is a
  function of the call's arguments, and the calls actually issued are
  collected in an explicit trace, so that "no insert call is issued"
  is a statement about the trace.
* Strings are treated as ASCII for character classes (`[A-Z]`, `[a-z]`,
  `[0-9]`, whitespace): every field name, column name and status string
  in the repository is ASCII.
-/

/-! ## Python scalar values -/

/-- A Python scalar value as it occurs in extracted rows: `bool`, `int`,
`float` (kept as an exact rational, see the header note) or `str`. -/
inductive PyVal where
  | pyBool : Bool → PyVal
  | pyInt : Int → PyVal
  | pyFloat : Rat → PyVal
  | pyStr : String → PyVal
deriving DecidableEq, Repr

/-- Python `isinstance(v, int)`: true for `int` and for `bool`, because
`bool` is a subclass of `int` in Python. -/
def isinstanceInt : PyVal → Bool
  | .pyBool _ => true
  | .pyInt _ => true
  | _ => false

/-- Python `isinstance(v, float)`: true only for `float` values. -/
def isinstanceFloat : PyVal → Bool
  | .pyFloat _ => true
  | _ => false

/-- Python `isinstance(v, bool)`. -/
def isinstanceBool : PyVal → Bool
  | .pyBool _ => true
  | _ => false

/-- Python truthiness of a scalar (`if value:`): `False`, `0`, `0.0` and
`""` are falsy, everything else truthy. -/
def pyTruthy : PyVal → Bool
  | .pyBool b => b
  | .pyInt n => n != 0
  | .pyFloat q => q != 0
  | .pyStr s => s != ""

/-- Python `str(v)` / f-string interpolation of a scalar.  Strings are
interpolated verbatim; the numeric renderings follow Python for `int` and
`bool` (float rendering is abstract, see the header note: no claim under
study interpolates a float). -/
def pyToStr : PyVal → String
  | .pyStr s => s
  | .pyInt n => toString n
  | .pyBool b => if b then "True" else "False"
  | .pyFloat q => toString q

/-! ## Python dicts as association lists -/

/-- A Python dict keyed by strings: an association list in insertion
order, with at most one entry per key in every dict the code builds. -/
abbrev PyDict (α : Type) := List (String × α)

/-- Python dict assignment `d[k] = v`: overwrite in place if the key
exists, else append (insertion order preserved). -/
def dictInsert {α : Type} : PyDict α → String → α → PyDict α
  | [], k, v => [(k, v)]
  | (k', v') :: rest, k, v =>
      if k' = k then (k, v) :: rest else (k', v') :: dictInsert rest k v

/-- Python `base.update(other)`: assign every entry of `other` into
`base`, in order. -/
def dictUpdate {α : Type} (base : PyDict α) (other : PyDict α) : PyDict α :=
  other.foldl (fun acc p => dictInsert acc p.1 p.2) base

/-! ## Field Normalizer — `camel_to_snake` (ga4_extractor.py lines 26-39)

The Python source applies two `re.sub` passes and then `str.lower()`:

    name = re.sub('(.)([A-Z][a-z]+)', r'\1_\2', name)
    name = re.sub('([a-z0-9])([A-Z])', r'\1_\2', name)
    return name.lower()

Both substitutions insert an underscore inside the match and keep the
matched characters, so they are embedded as left-to-right scans that
insert `'_'` and resume after the match, exactly like `re.sub`'s
non-overlapping scan.  `'.'` in a Python regex does not match `'\n'`,
and the character classes are ASCII. -/

/-- ASCII `[A-Z]` (code points 65-90). -/
def isUpperAZ (c : Char) : Bool := decide (65 ≤ c.toNat ∧ c.toNat ≤ 90)

/-- ASCII `[a-z]` (code points 97-122). -/
def isLowerAZ (c : Char) : Bool := decide (97 ≤ c.toNat ∧ c.toNat ≤ 122)

/-- ASCII `[0-9]` (code points 48-57). -/
def isDigit09 (c : Char) : Bool := decide (48 ≤ c.toNat ∧ c.toNat ≤ 57)

/-- ASCII lowering of one character, as `str.lower()` acts on ASCII:
`A`-`Z` shift by 32, everything else is unchanged. -/
def asciiLower (c : Char) : Char :=
  if isUpperAZ c then Char.ofNat (c.toNat + 32) else c

/-- First `re.sub` pass of `camel_to_snake`: pattern `(.)([A-Z][a-z]+)`,
replacement `\1_\2`.  A match consumes one arbitrary non-newline
character, an uppercase letter and a maximal (greedy) nonempty lowercase
run; the replacement re-emits the match with `'_'` inserted after the
first character, and scanning resumes after the match.  `fuel` bounds the
recursion and starts at the list length, which every step strictly
decreases, so the `0` case is never reached from `sub1`. -/
def sub1Go : Nat → List Char → List Char
  | 0, cs => cs
  | _ + 1, [] => []
  | _ + 1, [c] => [c]
  | _ + 1, [c1, c2] => [c1, c2]
  | n + 1, c1 :: c2 :: c3 :: rest =>
      if c1 ≠ '\n' ∧ isUpperAZ c2 = true ∧ isLowerAZ c3 = true then
        let lows := (c3 :: rest).takeWhile isLowerAZ
        let rest' := (c3 :: rest).dropWhile isLowerAZ
        c1 :: '_' :: c2 :: (lows ++ sub1Go n rest')
      else
        c1 :: sub1Go n (c2 :: c3 :: rest)

def sub1 (cs : List Char) : List Char := sub1Go cs.length cs

/-- Second `re.sub` pass: pattern `([a-z0-9])([A-Z])`, replacement
`\1_\2`; a match consumes the two characters and scanning resumes after
them. -/
def sub2Go : Nat → List Char → List Char
  | 0, cs => cs
  | _ + 1, [] => []
  | _ + 1, [c] => [c]
  | n + 1, c1 :: c2 :: rest =>
      if (isLowerAZ c1 = true ∨ isDigit09 c1 = true) ∧ isUpperAZ c2 = true then
        c1 :: '_' :: c2 :: sub2Go n rest
      else
        c1 :: sub2Go n (c2 :: rest)

def sub2 (cs : List Char) : List Char := sub2Go cs.length cs

/-- `camel_to_snake` (ga4_extractor.py lines 26-39): the two substitution
passes followed by `str.lower()`. -/
def camel_to_snake (s : String) : String :=
  String.mk ((sub2 (sub1 s.toList)).map asciiLower)

example : camel_to_snake "campaignId" = "campaign_id" := by decide
example : camel_to_snake "sessionCampaignId" = "session_campaign_id" := by decide
example : camel_to_snake "itemCategory2" = "item_category2" := by decide
example : camel_to_snake "newVsReturning" = "new_vs_returning" := by decide
example : camel_to_snake "ABCd" = "ab_cd" := by decide
example : camel_to_snake "aBCDef" = "a_bc_def" := by decide
example : camel_to_snake "a1A2B" = "a1_a2_b" := by decide
example : camel_to_snake "ID" = "id" := by decide
example : camel_to_snake "custom:dimName" = "custom:dim_name" := by decide

/-- Lowercase an ASCII string, `str.lower()`. -/
def asciiLowerStr (s : String) : String := String.mk (s.toList.map asciiLower)

/-- Python `':' in s` on a one-character needle: character membership. -/
def hasColon (s : String) : Bool := s.toList.contains ':'

/-! ## Numeric coercion (run_report, ga4_extractor.py lines 161-168)

    try:
        if "." in metric_value.value:
            row_data[field_name] = float(metric_value.value)
        else:
            row_data[field_name] = int(metric_value.value)
    except ValueError:
        row_data[field_name] = metric_value.value

`int(str)` and `float(str)` are embedded as partial parsers returning
`Option`, `none` standing for the raised `ValueError` that the handler
turns into the verbatim-string fallback.  The grammars follow CPython on
ASCII input: surrounding whitespace stripped, optional sign, digits with
single underscores strictly between digits; for `float` an optional
fractional part (with at least one digit on either side of the dot) and
an optional `e`/`E` exponent.  (`inf`/`infinity`/`nan` literals contain
no `'.'` and therefore never reach the guarded `float` call.) -/

/-- ASCII whitespace stripped by Python's number parsers. -/
def isPyWs (c : Char) : Bool :=
  decide (c = ' ' ∨ c = '\t' ∨ c = '\n' ∨ c = '\r' ∨ c.toNat = 11 ∨ c.toNat = 12)

/-- Strip surrounding whitespace, as Python number conversion does. -/
def pyStrip (s : String) : List Char :=
  ((s.toList.dropWhile isPyWs).reverse.dropWhile isPyWs).reverse

def digitVal (c : Char) : Nat := c.toNat - 48

/-- Scan a maximal digit run, allowing single underscores strictly between
digits (Python's numeric-literal underscore rule).  Returns the value, the
number of digits consumed and the unconsumed rest. -/
def scanDigits : List Char → Nat → Nat → Nat × Nat × List Char
  | '_' :: c :: rest, acc, k =>
      if isDigit09 c then scanDigits rest (acc * 10 + digitVal c) (k + 1)
      else (acc, k, '_' :: c :: rest)
  | c :: rest, acc, k =>
      if isDigit09 c then scanDigits rest (acc * 10 + digitVal c) (k + 1)
      else (acc, k, c :: rest)
  | [], acc, k => (acc, k, [])

/-- Digit run that may not start with an underscore. -/
def scanDigitsFrom (cs : List Char) : Nat × Nat × List Char :=
  match cs with
  | c :: _ => if isDigit09 c then scanDigits cs 0 0 else (0, 0, cs)
  | [] => (0, 0, [])

/-- A complete digit string (at least one digit, underscores only between
digits, nothing left over), or `none`. -/
def digitsExactly (cs : List Char) : Option Nat :=
  match cs with
  | c :: _ =>
      if isDigit09 c then
        match scanDigits cs 0 0 with
        | (v, _, rest) => if rest.isEmpty then some v else none
      else none
  | [] => none

/-- Python `int(s)` on a string: optional sign, then digits. -/
def pyIntOfString (s : String) : Option Int :=
  match pyStrip s with
  | '+' :: rest => (digitsExactly rest).map (fun v => (v : Int))
  | '-' :: rest => (digitsExactly rest).map (fun v => -(v : Int))
  | cs => (digitsExactly cs).map (fun v => (v : Int))

/-- Exponent part after `e`/`E`: optional sign, then digits. -/
def parseExponent (cs : List Char) : Option Int :=
  match cs with
  | '+' :: rest => (digitsExactly rest).map (fun v => (v : Int))
  | '-' :: rest => (digitsExactly rest).map (fun v => -(v : Int))
  | rest => (digitsExactly rest).map (fun v => (v : Int))

/-- The exact rational `num * 10 ^ e / 10 ^ scale`, built with `mkRat` so
that it evaluates by kernel reduction. -/
def ratSci (num : Nat) (scale : Nat) (e : Int) : Rat :=
  match e with
  | .ofNat k => mkRat (num * 10 ^ k) (10 ^ scale)
  | .negSucc k => mkRat num (10 ^ scale * 10 ^ (k + 1))

/-- Close a float parse: after the mantissa (value `num`, `scale` digits
after the dot), accept the end of input or an exponent. -/
def pyFloatFinish (num : Nat) (scale : Nat) (rest : List Char) : Option Rat :=
  match rest with
  | [] => some (mkRat num (10 ^ scale))
  | 'e' :: r2 => (parseExponent r2).map (ratSci num scale)
  | 'E' :: r2 => (parseExponent r2).map (ratSci num scale)
  | _ => none

/-- Unsigned float body: `digits [. digits] [exp]` with at least one digit
in the mantissa. -/
def pyFloatBody (cs : List Char) : Option Rat :=
  match scanDigitsFrom cs with
  | (ip, ipn, r1) =>
    match r1 with
    | '.' :: r2 =>
        (match scanDigitsFrom r2 with
         | (fp, fpn, r3) =>
           if ipn + fpn = 0 then none
           else pyFloatFinish (ip * 10 ^ fpn + fp) fpn r3)
    | _ => if ipn = 0 then none else pyFloatFinish ip 0 r1

/-- Python `float(s)` on a string (finite-literal grammar; see the section
note on `inf`/`nan`). -/
def pyFloatOfString (s : String) : Option Rat :=
  match pyStrip s with
  | '+' :: rest => pyFloatBody rest
  | '-' :: rest => (pyFloatBody rest).map (fun q => -q)
  | cs => pyFloatBody cs

/-- The metric coercion of `run_report`: values containing `'.'` go
through `float`, the rest through `int`, and a parse failure keeps the
raw string verbatim. -/
def coerceMetricValue (s : String) : PyVal :=
  if s.toList.contains '.' then
    match pyFloatOfString s with
    | some q => PyVal.pyFloat q
    | none => PyVal.pyStr s
  else
    match pyIntOfString s with
    | some n => PyVal.pyInt n
    | none => PyVal.pyStr s

example : coerceMetricValue "12" = PyVal.pyInt 12 := by decide
example : coerceMetricValue "12.5" = PyVal.pyFloat (mkRat 25 2) := by decide
example : coerceMetricValue "N/A" = PyVal.pyStr "N/A" := by decide
example : coerceMetricValue " 12 " = PyVal.pyInt 12 := by decide
example : coerceMetricValue "+12" = PyVal.pyInt 12 := by decide
example : coerceMetricValue "-12" = PyVal.pyInt (-12) := by decide
example : coerceMetricValue "1_0" = PyVal.pyInt 10 := by decide
example : coerceMetricValue "1_0.5" = PyVal.pyFloat (mkRat 21 2) := by decide
example : coerceMetricValue "1_.5" = PyVal.pyStr "1_.5" := by decide
example : coerceMetricValue ".5" = PyVal.pyFloat (mkRat 1 2) := by decide
example : coerceMetricValue "5." = PyVal.pyFloat 5 := by decide
example : coerceMetricValue "1.e5" = PyVal.pyFloat 100000 := by decide
example : coerceMetricValue "." = PyVal.pyStr "." := by decide
example : coerceMetricValue "12.5.6" = PyVal.pyStr "12.5.6" := by decide
example : coerceMetricValue "" = PyVal.pyStr "" := by decide

/-! ## ga4-campaign extractor (ga4_extractor.py) -/

/-- `generate_session_key` (ga4_extractor.py lines 68-80):

    clean_property_id = property_id.replace("properties/", "")
    return f"{clean_property_id}_{date}"

`str.replace` removes every (leftmost, non-overlapping) occurrence of the
pattern, not only a leading prefix; `pyReplace` below embeds exactly
that. -/
def pyReplaceGo (pat rep : List Char) : Nat → List Char → List Char
  | 0, cs => cs
  | _ + 1, [] => []
  | n + 1, c :: cs =>
      if pat.isPrefixOf (c :: cs) then
        rep ++ pyReplaceGo pat rep n ((c :: cs).drop pat.length)
      else
        c :: pyReplaceGo pat rep n cs

/-- Python `s.replace(pat, rep)` for a nonempty pattern (every pattern in
the repository is nonempty; Python's special empty-pattern behaviour is
not modelled). -/
def pyReplace (s pat rep : String) : String :=
  if pat.toList.isEmpty then s
  else String.mk (pyReplaceGo pat.toList rep.toList s.toList.length s.toList)

example : pyReplace "properties/123" "properties/" "" = "123" := by decide
example : pyReplace "123" "properties/" "" = "123" := by decide
example : pyReplace "aproperties/b" "properties/" "" = "ab" := by decide
example : pyReplace "propproperties/erties/x" "properties/" "" = "properties/x" := by decide

def generate_session_key (property_id : String) (date : String) : String :=
  pyReplace property_id "properties/" "" ++ "_" ++ date

/-- The dimension filter of `run_report` (ga4_extractor.py line 119):
`[d for d in dimensions if ':' not in d]`. -/
def valid_dimensions_of (dimensions : List String) : List String :=
  dimensions.filter (fun d => !(hasColon d))

/-- One extracted row. -/
abbrev Row := PyDict PyVal

/-- The row construction of `run_report` (ga4_extractor.py lines 143-170):
dimension values are paired positionally with the filtered dimension
names and stored under `camel_to_snake` keys; metric values likewise,
after numeric coercion.  The response is assumed to carry exactly one
value per requested dimension/metric (the Python code indexes the name
lists positionally). -/
def run_report_row (valid_dimensions metrics : List String)
    (dimValues metricValues : List String) : Row :=
  let withDims := (valid_dimensions.zip dimValues).foldl
    (fun acc p => dictInsert acc (camel_to_snake p.1) (PyVal.pyStr p.2)) []
  (metrics.zip metricValues).foldl
    (fun acc p => dictInsert acc (camel_to_snake p.1) (coerceMetricValue p.2)) withDims

/-- The per-row enrichment of `extract_dimension` (ga4_extractor.py lines
219-234): the base bookkeeping dict is built and then `update`d with the
extracted row.

    row_date = row.get("date", start_date)
    processed_row = {
        "id": generate_id(),
        "ga4_session_key": generate_session_key(clean_property_id, row_date),
        "property_id": clean_property_id,
        "date": row_date,
        "last_update": execution_time,
    }
    processed_row.update(row)

`generate_id()` (a fresh UUID) is supplied as the `new_id` parameter. -/
def enrich_row (clean_property_id start_date execution_time new_id : String)
    (row : Row) : Row :=
  let row_date : PyVal := (row.lookup "date").getD (.pyStr start_date)
  let base : Row :=
    [("id", .pyStr new_id),
     ("ga4_session_key", .pyStr (generate_session_key clean_property_id (pyToStr row_date))),
     ("property_id", .pyStr clean_property_id),
     ("date", row_date),
     ("last_update", .pyStr execution_time)]
  dictUpdate base row

/-! ## ga4-campaign schema catalog (schemas.py)

Transcription of `get_base_fields` and `DIMENSION_SCHEMAS`.  A schema
field keeps its four dict entries (`name`, `type`, `mode`,
`description`). -/

structure SchemaField where
  name : String
  type : String
  mode : String
  description : String
deriving DecidableEq, Repr

structure TableSchema where
  table_name : String
  description : String
  dimensions : List String
  metrics : List String
  schema_fields : List SchemaField
deriving DecidableEq, Repr

/-- `get_base_fields` (schemas.py lines 27-68). -/
def get_base_fields (table_name : String) : List SchemaField :=
  [⟨"PK_" ++ table_name, "STRING", "REQUIRED", "Chave primaria unica (UUID)"⟩,
   ⟨"GA4_SESSION_KEY", "STRING", "REQUIRED",
     "Chave estrangeira para relacionar tabelas GA4 (PROPERTY_ID + DATE)"⟩,
   ⟨"PROPERTY_ID", "STRING", "REQUIRED", "ID da propriedade GA4"⟩,
   ⟨"DATE", "DATE", "REQUIRED", "Data do registro (campo de particionamento)"⟩,
   ⟨"LAST_UPDATE", "TIMESTAMP", "REQUIRED",
     "Timestamp da execucao e carregamento no BigQuery"⟩]
def CAMPAIGN_SCHEMA : TableSchema where
  table_name := "GA4_DIM_CAMPAIGN"
  description := "Dimensoes de campanhas de marketing"
  dimensions := ["date", "campaignId", "campaignName", "sessionCampaignId", "sessionCampaignName", "firstUserCampaignId", "firstUserCampaignName", "sessionManualAdContent", "sessionManualTerm", "googleAdsAdGroupId", "googleAdsAdGroupName", "googleAdsAdNetworkType"]
  metrics := ["sessions", "totalUsers", "newUsers", "activeUsers", "engagedSessions", "engagementRate", "eventCount", "conversions", "totalRevenue"]
  schema_fields := get_base_fields "GA4_DIM_CAMPAIGN" ++ [
    ⟨"CAMPAIGN_ID", "STRING", "NULLABLE", "ID da campanha"⟩,
    ⟨"CAMPAIGN_NAME", "STRING", "NULLABLE", "Nome da campanha"⟩,
    ⟨"SESSION_CAMPAIGN_ID", "STRING", "NULLABLE", "ID da campanha da sessao"⟩,
    ⟨"SESSION_CAMPAIGN_NAME", "STRING", "NULLABLE", "Nome da campanha da sessao"⟩,
    ⟨"FIRST_USER_CAMPAIGN_ID", "STRING", "NULLABLE", "ID da campanha do primeiro usuario"⟩,
    ⟨"FIRST_USER_CAMPAIGN_NAME", "STRING", "NULLABLE", "Nome da campanha do primeiro usuario"⟩,
    ⟨"SESSION_MANUAL_AD_CONTENT", "STRING", "NULLABLE", "Conteudo do anuncio manual"⟩,
    ⟨"SESSION_MANUAL_TERM", "STRING", "NULLABLE", "Termo manual da sessao"⟩,
    ⟨"GOOGLE_ADS_AD_GROUP_ID", "STRING", "NULLABLE", "ID do grupo de anuncios Google Ads"⟩,
    ⟨"GOOGLE_ADS_AD_GROUP_NAME", "STRING", "NULLABLE", "Nome do grupo de anuncios Google Ads"⟩,
    ⟨"GOOGLE_ADS_AD_NETWORK_TYPE", "STRING", "NULLABLE", "Tipo de rede Google Ads"⟩,
    ⟨"SESSIONS", "INTEGER", "NULLABLE", "Numero de sessoes"⟩,
    ⟨"TOTAL_USERS", "INTEGER", "NULLABLE", "Total de usuarios"⟩,
    ⟨"NEW_USERS", "INTEGER", "NULLABLE", "Novos usuarios"⟩,
    ⟨"ACTIVE_USERS", "INTEGER", "NULLABLE", "Usuarios ativos"⟩,
    ⟨"ENGAGED_SESSIONS", "INTEGER", "NULLABLE", "Sessoes engajadas"⟩,
    ⟨"ENGAGEMENT_RATE", "FLOAT", "NULLABLE", "Taxa de engajamento"⟩,
    ⟨"EVENT_COUNT", "INTEGER", "NULLABLE", "Contagem de eventos"⟩,
    ⟨"CONVERSIONS", "INTEGER", "NULLABLE", "Conversoes"⟩,
    ⟨"TOTAL_REVENUE", "FLOAT", "NULLABLE", "Receita total"⟩]

def SOURCE_MEDIUM_SCHEMA : TableSchema where
  table_name := "GA4_DIM_SOURCE_MEDIUM"
  description := "Dimensoes de origem e midia de trafego"
  dimensions := ["date", "sessionSource", "sessionMedium", "sessionSourceMedium", "sessionSourcePlatform", "firstUserSource", "firstUserMedium", "firstUserSourceMedium", "firstUserSourcePlatform"]
  metrics := ["sessions", "totalUsers", "newUsers", "activeUsers", "engagedSessions", "engagementRate", "bounceRate", "averageSessionDuration", "screenPageViews", "conversions"]
  schema_fields := get_base_fields "GA4_DIM_SOURCE_MEDIUM" ++ [
    ⟨"SESSION_SOURCE", "STRING", "NULLABLE", "Origem da sessao"⟩,
    ⟨"SESSION_MEDIUM", "STRING", "NULLABLE", "Midia da sessao"⟩,
    ⟨"SESSION_SOURCE_MEDIUM", "STRING", "NULLABLE", "Origem/Midia da sessao"⟩,
    ⟨"SESSION_SOURCE_PLATFORM", "STRING", "NULLABLE", "Plataforma de origem da sessao"⟩,
    ⟨"FIRST_USER_SOURCE", "STRING", "NULLABLE", "Origem do primeiro usuario"⟩,
    ⟨"FIRST_USER_MEDIUM", "STRING", "NULLABLE", "Midia do primeiro usuario"⟩,
    ⟨"FIRST_USER_SOURCE_MEDIUM", "STRING", "NULLABLE", "Origem/Midia do primeiro usuario"⟩,
    ⟨"FIRST_USER_SOURCE_PLATFORM", "STRING", "NULLABLE", "Plataforma de origem do primeiro usuario"⟩,
    ⟨"SESSIONS", "INTEGER", "NULLABLE", "Numero de sessoes"⟩,
    ⟨"TOTAL_USERS", "INTEGER", "NULLABLE", "Total de usuarios"⟩,
    ⟨"NEW_USERS", "INTEGER", "NULLABLE", "Novos usuarios"⟩,
    ⟨"ACTIVE_USERS", "INTEGER", "NULLABLE", "Usuarios ativos"⟩,
    ⟨"ENGAGED_SESSIONS", "INTEGER", "NULLABLE", "Sessoes engajadas"⟩,
    ⟨"ENGAGEMENT_RATE", "FLOAT", "NULLABLE", "Taxa de engajamento"⟩,
    ⟨"BOUNCE_RATE", "FLOAT", "NULLABLE", "Taxa de rejeicao"⟩,
    ⟨"AVERAGE_SESSION_DURATION", "FLOAT", "NULLABLE", "Duracao media da sessao"⟩,
    ⟨"SCREEN_PAGE_VIEWS", "INTEGER", "NULLABLE", "Visualizacoes de pagina"⟩,
    ⟨"CONVERSIONS", "INTEGER", "NULLABLE", "Conversoes"⟩]

def CHANNEL_SCHEMA : TableSchema where
  table_name := "GA4_DIM_CHANNEL"
  description := "Dimensoes de canais de aquisicao"
  dimensions := ["date", "sessionDefaultChannelGroup", "firstUserDefaultChannelGroup", "sessionPrimaryChannelGroup", "firstUserPrimaryChannelGroup"]
  metrics := ["sessions", "totalUsers", "newUsers", "activeUsers", "engagedSessions", "engagementRate", "bounceRate", "averageSessionDuration", "conversions", "totalRevenue"]
  schema_fields := get_base_fields "GA4_DIM_CHANNEL" ++ [
    ⟨"SESSION_DEFAULT_CHANNEL_GROUP", "STRING", "NULLABLE", "Grupo de canal padrao da sessao"⟩,
    ⟨"FIRST_USER_DEFAULT_CHANNEL_GROUP", "STRING", "NULLABLE", "Grupo de canal padrao do primeiro usuario"⟩,
    ⟨"SESSION_PRIMARY_CHANNEL_GROUP", "STRING", "NULLABLE", "Grupo de canal primario da sessao"⟩,
    ⟨"FIRST_USER_PRIMARY_CHANNEL_GROUP", "STRING", "NULLABLE", "Grupo de canal primario do primeiro usuario"⟩,
    ⟨"SESSIONS", "INTEGER", "NULLABLE", "Numero de sessoes"⟩,
    ⟨"TOTAL_USERS", "INTEGER", "NULLABLE", "Total de usuarios"⟩,
    ⟨"NEW_USERS", "INTEGER", "NULLABLE", "Novos usuarios"⟩,
    ⟨"ACTIVE_USERS", "INTEGER", "NULLABLE", "Usuarios ativos"⟩,
    ⟨"ENGAGED_SESSIONS", "INTEGER", "NULLABLE", "Sessoes engajadas"⟩,
    ⟨"ENGAGEMENT_RATE", "FLOAT", "NULLABLE", "Taxa de engajamento"⟩,
    ⟨"BOUNCE_RATE", "FLOAT", "NULLABLE", "Taxa de rejeicao"⟩,
    ⟨"AVERAGE_SESSION_DURATION", "FLOAT", "NULLABLE", "Duracao media da sessao"⟩,
    ⟨"CONVERSIONS", "INTEGER", "NULLABLE", "Conversoes"⟩,
    ⟨"TOTAL_REVENUE", "FLOAT", "NULLABLE", "Receita total"⟩]

def GEOGRAPHIC_SCHEMA : TableSchema where
  table_name := "GA4_DIM_GEOGRAPHIC"
  description := "Dimensoes geograficas dos usuarios"
  dimensions := ["date", "country", "countryId", "region", "city", "cityId", "continent", "continentId", "subContinent"]
  metrics := ["sessions", "totalUsers", "newUsers", "activeUsers", "engagedSessions", "engagementRate", "screenPageViews"]
  schema_fields := get_base_fields "GA4_DIM_GEOGRAPHIC" ++ [
    ⟨"COUNTRY", "STRING", "NULLABLE", "Pais"⟩,
    ⟨"COUNTRY_ID", "STRING", "NULLABLE", "ID do pais"⟩,
    ⟨"REGION", "STRING", "NULLABLE", "Regiao/Estado"⟩,
    ⟨"CITY", "STRING", "NULLABLE", "Cidade"⟩,
    ⟨"CITY_ID", "STRING", "NULLABLE", "ID da cidade"⟩,
    ⟨"CONTINENT", "STRING", "NULLABLE", "Continente"⟩,
    ⟨"CONTINENT_ID", "STRING", "NULLABLE", "ID do continente"⟩,
    ⟨"SUB_CONTINENT", "STRING", "NULLABLE", "Subcontinente"⟩,
    ⟨"SESSIONS", "INTEGER", "NULLABLE", "Numero de sessoes"⟩,
    ⟨"TOTAL_USERS", "INTEGER", "NULLABLE", "Total de usuarios"⟩,
    ⟨"NEW_USERS", "INTEGER", "NULLABLE", "Novos usuarios"⟩,
    ⟨"ACTIVE_USERS", "INTEGER", "NULLABLE", "Usuarios ativos"⟩,
    ⟨"ENGAGED_SESSIONS", "INTEGER", "NULLABLE", "Sessoes engajadas"⟩,
    ⟨"ENGAGEMENT_RATE", "FLOAT", "NULLABLE", "Taxa de engajamento"⟩,
    ⟨"SCREEN_PAGE_VIEWS", "INTEGER", "NULLABLE", "Visualizacoes de pagina"⟩]

def DEVICE_SCHEMA : TableSchema where
  table_name := "GA4_DIM_DEVICE"
  description := "Dimensoes de dispositivos e tecnologia"
  dimensions := ["date", "deviceCategory", "deviceModel", "mobileDeviceBranding", "mobileDeviceModel", "mobileDeviceMarketingName", "operatingSystem", "operatingSystemVersion", "operatingSystemWithVersion", "browser", "browserVersion", "platform", "platformDeviceCategory", "screenResolution"]
  metrics := ["sessions", "totalUsers", "newUsers", "activeUsers", "engagedSessions", "engagementRate", "screenPageViews"]
  schema_fields := get_base_fields "GA4_DIM_DEVICE" ++ [
    ⟨"DEVICE_CATEGORY", "STRING", "NULLABLE", "Categoria do dispositivo"⟩,
    ⟨"DEVICE_MODEL", "STRING", "NULLABLE", "Modelo do dispositivo"⟩,
    ⟨"MOBILE_DEVICE_BRANDING", "STRING", "NULLABLE", "Marca do dispositivo movel"⟩,
    ⟨"MOBILE_DEVICE_MODEL", "STRING", "NULLABLE", "Modelo do dispositivo movel"⟩,
    ⟨"MOBILE_DEVICE_MARKETING_NAME", "STRING", "NULLABLE", "Nome de marketing do dispositivo movel"⟩,
    ⟨"OPERATING_SYSTEM", "STRING", "NULLABLE", "Sistema operacional"⟩,
    ⟨"OPERATING_SYSTEM_VERSION", "STRING", "NULLABLE", "Versao do sistema operacional"⟩,
    ⟨"OPERATING_SYSTEM_WITH_VERSION", "STRING", "NULLABLE", "Sistema operacional com versao"⟩,
    ⟨"BROWSER", "STRING", "NULLABLE", "Navegador"⟩,
    ⟨"BROWSER_VERSION", "STRING", "NULLABLE", "Versao do navegador"⟩,
    ⟨"PLATFORM", "STRING", "NULLABLE", "Plataforma"⟩,
    ⟨"PLATFORM_DEVICE_CATEGORY", "STRING", "NULLABLE", "Categoria de dispositivo da plataforma"⟩,
    ⟨"SCREEN_RESOLUTION", "STRING", "NULLABLE", "Resolucao de tela"⟩,
    ⟨"SESSIONS", "INTEGER", "NULLABLE", "Numero de sessoes"⟩,
    ⟨"TOTAL_USERS", "INTEGER", "NULLABLE", "Total de usuarios"⟩,
    ⟨"NEW_USERS", "INTEGER", "NULLABLE", "Novos usuarios"⟩,
    ⟨"ACTIVE_USERS", "INTEGER", "NULLABLE", "Usuarios ativos"⟩,
    ⟨"ENGAGED_SESSIONS", "INTEGER", "NULLABLE", "Sessoes engajadas"⟩,
    ⟨"ENGAGEMENT_RATE", "FLOAT", "NULLABLE", "Taxa de engajamento"⟩,
    ⟨"SCREEN_PAGE_VIEWS", "INTEGER", "NULLABLE", "Visualizacoes de pagina"⟩]

def PAGE_SCHEMA : TableSchema where
  table_name := "GA4_DIM_PAGE"
  description := "Dimensoes de paginas e conteudo"
  dimensions := ["date", "pagePath", "pagePathPlusQueryString", "pageTitle", "landingPage", "landingPagePlusQueryString", "exitPage", "hostname", "pageReferrer", "contentGroup", "contentId", "contentType"]
  metrics := ["screenPageViews", "activeUsers", "sessions", "engagedSessions", "averageSessionDuration", "bounceRate", "entrances", "exits"]
  schema_fields := get_base_fields "GA4_DIM_PAGE" ++ [
    ⟨"PAGE_PATH", "STRING", "NULLABLE", "Caminho da pagina"⟩,
    ⟨"PAGE_PATH_PLUS_QUERY_STRING", "STRING", "NULLABLE", "Caminho da pagina com query string"⟩,
    ⟨"PAGE_TITLE", "STRING", "NULLABLE", "Titulo da pagina"⟩,
    ⟨"LANDING_PAGE", "STRING", "NULLABLE", "Pagina de entrada"⟩,
    ⟨"LANDING_PAGE_PLUS_QUERY_STRING", "STRING", "NULLABLE", "Pagina de entrada com query string"⟩,
    ⟨"EXIT_PAGE", "STRING", "NULLABLE", "Pagina de saida"⟩,
    ⟨"HOSTNAME", "STRING", "NULLABLE", "Nome do host"⟩,
    ⟨"PAGE_REFERRER", "STRING", "NULLABLE", "Referenciador da pagina"⟩,
    ⟨"CONTENT_GROUP", "STRING", "NULLABLE", "Grupo de conteudo"⟩,
    ⟨"CONTENT_ID", "STRING", "NULLABLE", "ID do conteudo"⟩,
    ⟨"CONTENT_TYPE", "STRING", "NULLABLE", "Tipo de conteudo"⟩,
    ⟨"SCREEN_PAGE_VIEWS", "INTEGER", "NULLABLE", "Visualizacoes de pagina"⟩,
    ⟨"ACTIVE_USERS", "INTEGER", "NULLABLE", "Usuarios ativos"⟩,
    ⟨"SESSIONS", "INTEGER", "NULLABLE", "Numero de sessoes"⟩,
    ⟨"ENGAGED_SESSIONS", "INTEGER", "NULLABLE", "Sessoes engajadas"⟩,
    ⟨"AVERAGE_SESSION_DURATION", "FLOAT", "NULLABLE", "Duracao media da sessao"⟩,
    ⟨"BOUNCE_RATE", "FLOAT", "NULLABLE", "Taxa de rejeicao"⟩,
    ⟨"ENTRANCES", "INTEGER", "NULLABLE", "Entradas"⟩,
    ⟨"EXITS", "INTEGER", "NULLABLE", "Saidas"⟩]

def EVENT_SCHEMA : TableSchema where
  table_name := "GA4_DIM_EVENT"
  description := "Dimensoes de eventos e conversoes"
  dimensions := ["date", "eventName", "isConversionEvent"]
  metrics := ["eventCount", "eventCountPerUser", "eventsPerSession", "activeUsers", "totalUsers", "conversions", "eventValue", "totalRevenue"]
  schema_fields := get_base_fields "GA4_DIM_EVENT" ++ [
    ⟨"EVENT_NAME", "STRING", "NULLABLE", "Nome do evento"⟩,
    ⟨"IS_CONVERSION_EVENT", "STRING", "NULLABLE", "Indica se e evento de conversao"⟩,
    ⟨"EVENT_COUNT", "INTEGER", "NULLABLE", "Contagem de eventos"⟩,
    ⟨"EVENT_COUNT_PER_USER", "FLOAT", "NULLABLE", "Eventos por usuario"⟩,
    ⟨"EVENTS_PER_SESSION", "FLOAT", "NULLABLE", "Eventos por sessao"⟩,
    ⟨"ACTIVE_USERS", "INTEGER", "NULLABLE", "Usuarios ativos"⟩,
    ⟨"TOTAL_USERS", "INTEGER", "NULLABLE", "Total de usuarios"⟩,
    ⟨"CONVERSIONS", "INTEGER", "NULLABLE", "Conversoes"⟩,
    ⟨"EVENT_VALUE", "FLOAT", "NULLABLE", "Valor do evento"⟩,
    ⟨"TOTAL_REVENUE", "FLOAT", "NULLABLE", "Receita total"⟩]

def USER_SCHEMA : TableSchema where
  table_name := "GA4_DIM_USER"
  description := "Dimensoes de usuarios e demograficos"
  dimensions := ["date", "newVsReturning", "userAgeBracket", "userGender", "signedInWithUserId", "firstSessionDate", "firstUserCampaignId", "firstUserCampaignName", "firstUserGoogleAdsAccountName", "firstUserGoogleAdsAdGroupId", "firstUserGoogleAdsAdGroupName"]
  metrics := ["activeUsers", "newUsers", "totalUsers", "sessions", "sessionsPerUser", "engagedSessions", "engagementRate", "averageSessionDuration", "screenPageViewsPerSession"]
  schema_fields := get_base_fields "GA4_DIM_USER" ++ [
    ⟨"NEW_VS_RETURNING", "STRING", "NULLABLE", "Novo vs recorrente"⟩,
    ⟨"USER_AGE_BRACKET", "STRING", "NULLABLE", "Faixa etaria do usuario"⟩,
    ⟨"USER_GENDER", "STRING", "NULLABLE", "Genero do usuario"⟩,
    ⟨"SIGNED_IN_WITH_USER_ID", "STRING", "NULLABLE", "Logado com user ID"⟩,
    ⟨"FIRST_SESSION_DATE", "STRING", "NULLABLE", "Data da primeira sessao"⟩,
    ⟨"FIRST_USER_CAMPAIGN_ID", "STRING", "NULLABLE", "ID da campanha do primeiro usuario"⟩,
    ⟨"FIRST_USER_CAMPAIGN_NAME", "STRING", "NULLABLE", "Nome da campanha do primeiro usuario"⟩,
    ⟨"FIRST_USER_GOOGLE_ADS_ACCOUNT_NAME", "STRING", "NULLABLE", "Nome da conta Google Ads do primeiro usuario"⟩,
    ⟨"FIRST_USER_GOOGLE_ADS_AD_GROUP_ID", "STRING", "NULLABLE", "ID do grupo de anuncios do primeiro usuario"⟩,
    ⟨"FIRST_USER_GOOGLE_ADS_AD_GROUP_NAME", "STRING", "NULLABLE", "Nome do grupo de anuncios do primeiro usuario"⟩,
    ⟨"ACTIVE_USERS", "INTEGER", "NULLABLE", "Usuarios ativos"⟩,
    ⟨"NEW_USERS", "INTEGER", "NULLABLE", "Novos usuarios"⟩,
    ⟨"TOTAL_USERS", "INTEGER", "NULLABLE", "Total de usuarios"⟩,
    ⟨"SESSIONS", "INTEGER", "NULLABLE", "Numero de sessoes"⟩,
    ⟨"SESSIONS_PER_USER", "FLOAT", "NULLABLE", "Sessoes por usuario"⟩,
    ⟨"ENGAGED_SESSIONS", "INTEGER", "NULLABLE", "Sessoes engajadas"⟩,
    ⟨"ENGAGEMENT_RATE", "FLOAT", "NULLABLE", "Taxa de engajamento"⟩,
    ⟨"AVERAGE_SESSION_DURATION", "FLOAT", "NULLABLE", "Duracao media da sessao"⟩,
    ⟨"SCREEN_PAGE_VIEWS_PER_SESSION", "FLOAT", "NULLABLE", "Visualizacoes por sessao"⟩]

def ECOMMERCE_SCHEMA : TableSchema where
  table_name := "GA4_DIM_ECOMMERCE"
  description := "Dimensoes de ecommerce e transacoes"
  dimensions := ["date", "transactionId", "itemId", "itemName", "itemBrand", "itemCategory", "itemCategory2", "itemCategory3", "itemCategory4", "itemCategory5", "itemListId", "itemListName", "itemListPosition", "itemPromotionCreativeName", "itemPromotionId", "itemPromotionName", "orderCoupon", "shippingTier"]
  metrics := ["ecommercePurchases", "itemsAddedToCart", "itemsCheckedOut", "itemsClickedInList", "itemsClickedInPromotion", "itemsPurchased", "itemsViewed", "itemsViewedInList", "itemsViewedInPromotion", "itemRevenue", "purchaseRevenue", "totalRevenue", "transactions"]
  schema_fields := get_base_fields "GA4_DIM_ECOMMERCE" ++ [
    ⟨"TRANSACTION_ID", "STRING", "NULLABLE", "ID da transacao"⟩,
    ⟨"ITEM_ID", "STRING", "NULLABLE", "ID do item"⟩,
    ⟨"ITEM_NAME", "STRING", "NULLABLE", "Nome do item"⟩,
    ⟨"ITEM_BRAND", "STRING", "NULLABLE", "Marca do item"⟩,
    ⟨"ITEM_CATEGORY", "STRING", "NULLABLE", "Categoria do item"⟩,
    ⟨"ITEM_CATEGORY_2", "STRING", "NULLABLE", "Categoria 2 do item"⟩,
    ⟨"ITEM_CATEGORY_3", "STRING", "NULLABLE", "Categoria 3 do item"⟩,
    ⟨"ITEM_CATEGORY_4", "STRING", "NULLABLE", "Categoria 4 do item"⟩,
    ⟨"ITEM_CATEGORY_5", "STRING", "NULLABLE", "Categoria 5 do item"⟩,
    ⟨"ITEM_LIST_ID", "STRING", "NULLABLE", "ID da lista de itens"⟩,
    ⟨"ITEM_LIST_NAME", "STRING", "NULLABLE", "Nome da lista de itens"⟩,
    ⟨"ITEM_LIST_POSITION", "STRING", "NULLABLE", "Posicao na lista de itens"⟩,
    ⟨"ITEM_PROMOTION_CREATIVE_NAME", "STRING", "NULLABLE", "Nome criativo da promocao"⟩,
    ⟨"ITEM_PROMOTION_ID", "STRING", "NULLABLE", "ID da promocao"⟩,
    ⟨"ITEM_PROMOTION_NAME", "STRING", "NULLABLE", "Nome da promocao"⟩,
    ⟨"ORDER_COUPON", "STRING", "NULLABLE", "Cupom do pedido"⟩,
    ⟨"SHIPPING_TIER", "STRING", "NULLABLE", "Nivel de envio"⟩,
    ⟨"ECOMMERCE_PURCHASES", "INTEGER", "NULLABLE", "Compras de ecommerce"⟩,
    ⟨"ITEMS_ADDED_TO_CART", "INTEGER", "NULLABLE", "Itens adicionados ao carrinho"⟩,
    ⟨"ITEMS_CHECKED_OUT", "INTEGER", "NULLABLE", "Itens no checkout"⟩,
    ⟨"ITEMS_CLICKED_IN_LIST", "INTEGER", "NULLABLE", "Itens clicados na lista"⟩,
    ⟨"ITEMS_CLICKED_IN_PROMOTION", "INTEGER", "NULLABLE", "Itens clicados em promocao"⟩,
    ⟨"ITEMS_PURCHASED", "INTEGER", "NULLABLE", "Itens comprados"⟩,
    ⟨"ITEMS_VIEWED", "INTEGER", "NULLABLE", "Itens visualizados"⟩,
    ⟨"ITEMS_VIEWED_IN_LIST", "INTEGER", "NULLABLE", "Itens visualizados na lista"⟩,
    ⟨"ITEMS_VIEWED_IN_PROMOTION", "INTEGER", "NULLABLE", "Itens visualizados em promocao"⟩,
    ⟨"ITEM_REVENUE", "FLOAT", "NULLABLE", "Receita do item"⟩,
    ⟨"PURCHASE_REVENUE", "FLOAT", "NULLABLE", "Receita de compras"⟩,
    ⟨"TOTAL_REVENUE", "FLOAT", "NULLABLE", "Receita total"⟩,
    ⟨"TRANSACTIONS", "INTEGER", "NULLABLE", "Transacoes"⟩]

def SESSION_SCHEMA : TableSchema where
  table_name := "GA4_DIM_SESSION"
  description := "Dimensoes e metricas de sessao"
  dimensions := ["date", "sessionDefaultChannelGroup", "sessionSource", "sessionMedium", "sessionCampaignName", "landingPage", "deviceCategory", "country"]
  metrics := ["sessions", "engagedSessions", "averageSessionDuration", "bounceRate", "engagementRate", "sessionsPerUser", "screenPageViews", "screenPageViewsPerSession", "activeUsers", "newUsers", "totalUsers"]
  schema_fields := get_base_fields "GA4_DIM_SESSION" ++ [
    ⟨"SESSION_DEFAULT_CHANNEL_GROUP", "STRING", "NULLABLE", "Grupo de canal padrao"⟩,
    ⟨"SESSION_SOURCE", "STRING", "NULLABLE", "Origem da sessao"⟩,
    ⟨"SESSION_MEDIUM", "STRING", "NULLABLE", "Midia da sessao"⟩,
    ⟨"SESSION_CAMPAIGN_NAME", "STRING", "NULLABLE", "Nome da campanha"⟩,
    ⟨"LANDING_PAGE", "STRING", "NULLABLE", "Pagina de entrada"⟩,
    ⟨"DEVICE_CATEGORY", "STRING", "NULLABLE", "Categoria do dispositivo"⟩,
    ⟨"COUNTRY", "STRING", "NULLABLE", "Pais"⟩,
    ⟨"SESSIONS", "INTEGER", "NULLABLE", "Numero de sessoes"⟩,
    ⟨"ENGAGED_SESSIONS", "INTEGER", "NULLABLE", "Sessoes engajadas"⟩,
    ⟨"AVERAGE_SESSION_DURATION", "FLOAT", "NULLABLE", "Duracao media da sessao"⟩,
    ⟨"BOUNCE_RATE", "FLOAT", "NULLABLE", "Taxa de rejeicao"⟩,
    ⟨"ENGAGEMENT_RATE", "FLOAT", "NULLABLE", "Taxa de engajamento"⟩,
    ⟨"SESSIONS_PER_USER", "FLOAT", "NULLABLE", "Sessoes por usuario"⟩,
    ⟨"SCREEN_PAGE_VIEWS", "INTEGER", "NULLABLE", "Visualizacoes de pagina"⟩,
    ⟨"SCREEN_PAGE_VIEWS_PER_SESSION", "FLOAT", "NULLABLE", "Visualizacoes por sessao"⟩,
    ⟨"ACTIVE_USERS", "INTEGER", "NULLABLE", "Usuarios ativos"⟩,
    ⟨"NEW_USERS", "INTEGER", "NULLABLE", "Novos usuarios"⟩,
    ⟨"TOTAL_USERS", "INTEGER", "NULLABLE", "Total de usuarios"⟩]

def GOOGLE_ADS_SCHEMA : TableSchema where
  table_name := "GA4_DIM_GOOGLE_ADS"
  description := "Dimensoes de campanhas Google Ads"
  dimensions := ["date", "sessionGoogleAdsAccountName", "sessionGoogleAdsAdGroupId", "sessionGoogleAdsAdGroupName", "sessionGoogleAdsAdNetworkType", "sessionGoogleAdsCampaignId", "sessionGoogleAdsCampaignName", "sessionGoogleAdsCampaignType", "sessionGoogleAdsCreativeId", "sessionGoogleAdsKeyword", "sessionGoogleAdsQuery", "googleAdsAccountName", "googleAdsAdGroupId", "googleAdsAdGroupName", "googleAdsCampaignId", "googleAdsCampaignName"]
  metrics := ["sessions", "totalUsers", "newUsers", "activeUsers", "engagedSessions", "engagementRate", "conversions", "totalRevenue", "advertiserAdClicks", "advertiserAdCost", "advertiserAdCostPerClick", "advertiserAdImpressions"]
  schema_fields := get_base_fields "GA4_DIM_GOOGLE_ADS" ++ [
    ⟨"SESSION_GOOGLE_ADS_ACCOUNT_NAME", "STRING", "NULLABLE", "Nome da conta Google Ads da sessao"⟩,
    ⟨"SESSION_GOOGLE_ADS_AD_GROUP_ID", "STRING", "NULLABLE", "ID do grupo de anuncios da sessao"⟩,
    ⟨"SESSION_GOOGLE_ADS_AD_GROUP_NAME", "STRING", "NULLABLE", "Nome do grupo de anuncios da sessao"⟩,
    ⟨"SESSION_GOOGLE_ADS_AD_NETWORK_TYPE", "STRING", "NULLABLE", "Tipo de rede de anuncios da sessao"⟩,
    ⟨"SESSION_GOOGLE_ADS_CAMPAIGN_ID", "STRING", "NULLABLE", "ID da campanha Google Ads da sessao"⟩,
    ⟨"SESSION_GOOGLE_ADS_CAMPAIGN_NAME", "STRING", "NULLABLE", "Nome da campanha Google Ads da sessao"⟩,
    ⟨"SESSION_GOOGLE_ADS_CAMPAIGN_TYPE", "STRING", "NULLABLE", "Tipo de campanha Google Ads da sessao"⟩,
    ⟨"SESSION_GOOGLE_ADS_CREATIVE_ID", "STRING", "NULLABLE", "ID do criativo Google Ads da sessao"⟩,
    ⟨"SESSION_GOOGLE_ADS_KEYWORD", "STRING", "NULLABLE", "Palavra-chave Google Ads da sessao"⟩,
    ⟨"SESSION_GOOGLE_ADS_QUERY", "STRING", "NULLABLE", "Query Google Ads da sessao"⟩,
    ⟨"GOOGLE_ADS_ACCOUNT_NAME", "STRING", "NULLABLE", "Nome da conta Google Ads"⟩,
    ⟨"GOOGLE_ADS_AD_GROUP_ID", "STRING", "NULLABLE", "ID do grupo de anuncios"⟩,
    ⟨"GOOGLE_ADS_AD_GROUP_NAME", "STRING", "NULLABLE", "Nome do grupo de anuncios"⟩,
    ⟨"GOOGLE_ADS_CAMPAIGN_ID", "STRING", "NULLABLE", "ID da campanha Google Ads"⟩,
    ⟨"GOOGLE_ADS_CAMPAIGN_NAME", "STRING", "NULLABLE", "Nome da campanha Google Ads"⟩,
    ⟨"SESSIONS", "INTEGER", "NULLABLE", "Numero de sessoes"⟩,
    ⟨"TOTAL_USERS", "INTEGER", "NULLABLE", "Total de usuarios"⟩,
    ⟨"NEW_USERS", "INTEGER", "NULLABLE", "Novos usuarios"⟩,
    ⟨"ACTIVE_USERS", "INTEGER", "NULLABLE", "Usuarios ativos"⟩,
    ⟨"ENGAGED_SESSIONS", "INTEGER", "NULLABLE", "Sessoes engajadas"⟩,
    ⟨"ENGAGEMENT_RATE", "FLOAT", "NULLABLE", "Taxa de engajamento"⟩,
    ⟨"CONVERSIONS", "INTEGER", "NULLABLE", "Conversoes"⟩,
    ⟨"TOTAL_REVENUE", "FLOAT", "NULLABLE", "Receita total"⟩,
    ⟨"ADVERTISER_AD_CLICKS", "INTEGER", "NULLABLE", "Cliques em anuncios"⟩,
    ⟨"ADVERTISER_AD_COST", "FLOAT", "NULLABLE", "Custo de anuncios"⟩,
    ⟨"ADVERTISER_AD_COST_PER_CLICK", "FLOAT", "NULLABLE", "Custo por clique"⟩,
    ⟨"ADVERTISER_AD_IMPRESSIONS", "INTEGER", "NULLABLE", "Impressoes de anuncios"⟩]

def DIMENSION_SCHEMAS : List (String × TableSchema) := [
  ("CAMPAIGN", CAMPAIGN_SCHEMA),
  ("SOURCE_MEDIUM", SOURCE_MEDIUM_SCHEMA),
  ("CHANNEL", CHANNEL_SCHEMA),
  ("GEOGRAPHIC", GEOGRAPHIC_SCHEMA),
  ("DEVICE", DEVICE_SCHEMA),
  ("PAGE", PAGE_SCHEMA),
  ("EVENT", EVENT_SCHEMA),
  ("USER", USER_SCHEMA),
  ("ECOMMERCE", ECOMMERCE_SCHEMA),
  ("SESSION", SESSION_SCHEMA),
  ("GOOGLE_ADS", GOOGLE_ADS_SCHEMA)]

/-- `list_available_dimensions` (schemas.py lines 686-688). -/
def list_available_dimensions : List String := DIMENSION_SCHEMAS.map Prod.fst

/-! ## Batch driver — `extract_all_dimensions` (ga4_extractor.py lines 253-331) -/

/-- The dict returned by a successful `extract_dimension` call
(ga4_extractor.py lines 241-250). -/
structure Extraction where
  dimension_key : String
  table_name : String
  description : String
  rows_count : Nat
  data : List Row
  period_start : String
  period_end : String
  property_id : String
  extraction_time : String
deriving DecidableEq, Repr

/-- An entry of `results["extractions"]`: either a full extraction dict or
the error dict `{"error": str(e), "dimension_key": key}`. -/
inductive BatchEntry where
  | success (e : Extraction)
  | failure (error : String) (dimension_key : String)
deriving DecidableEq, Repr

structure BatchSummary where
  total_dimensions : Nat
  successful : Nat
  failed : Nat
  total_rows : Nat
deriving DecidableEq, Repr

structure BatchResults where
  property_id : String
  period_start : String
  period_end : String
  extractions : PyDict BatchEntry
  summary : BatchSummary
deriving DecidableEq, Repr

/-- Oracle for the per-key `extract_dimension` call inside the batch
loop: `.error msg` models the call raising an exception (unknown
dimension key, GA4 API failure, ...), which the loop's `except` clause
catches.  `default_date` is the `get_date_range()` wall-clock result used
when the caller passes no dates. -/
structure ExtractEnv where
  extract : String → Except String Extraction
  default_date : String

/-- Python truthiness of an optional string (`if not start_date`): `None`
and `""` are falsy. -/
def strFalsy : Option String → Bool
  | none => true
  | some s => s = ""

/-- Date defaulting of `extract_all_dimensions` (lines 276-277):
`if not start_date or not end_date: start_date, end_date = get_date_range()`. -/
def resolve_dates (env : ExtractEnv) (sd ed : Option String) : String × String :=
  if strFalsy sd || strFalsy ed then (env.default_date, env.default_date)
  else (sd.getD "", ed.getD "")

/-- Key-list defaulting (line 280):
`dimensions_to_extract = dimensions or list_available_dimensions()`. -/
def resolve_keys (dims : Option (List String)) : List String :=
  match dims with
  | none => list_available_dimensions
  | some l => if l.isEmpty then list_available_dimensions else l

/-- One iteration of the batch loop (lines 301-323): try the extraction,
record the result or the error entry, bump the counters. -/
def batchStep (env : ExtractEnv) (acc : PyDict BatchEntry × BatchSummary)
    (key : String) : PyDict BatchEntry × BatchSummary :=
  match env.extract key with
  | .ok e =>
      (dictInsert acc.1 key (.success e),
       { acc.2 with successful := acc.2.successful + 1,
                    total_rows := acc.2.total_rows + e.rows_count })
  | .error msg =>
      (dictInsert acc.1 key (.failure msg key),
       { acc.2 with failed := acc.2.failed + 1 })

/-- `extract_all_dimensions` (ga4_extractor.py lines 253-331). -/
def extract_all_dimensions (env : ExtractEnv) (property_id : String)
    (start_date end_date : Option String) (dimensions : Option (List String)) :
    BatchResults :=
  let dates := resolve_dates env start_date end_date
  let keys := resolve_keys dimensions
  let final := keys.foldl (batchStep env)
    ([], ⟨keys.length, 0, 0, 0⟩)
  ⟨property_id, dates.1, dates.2, final.1, final.2⟩

/-! ## ga4-campaign BigQuery client (bigquery_client.py) -/

namespace Campaign

/-- One BigQuery client call, as recorded in the call trace. -/
inductive SinkCall where
  | deleteCall (table_ref : String) (partition_date : PyVal)
  | insertCall (table_ref : String) (rows : List Row)
deriving DecidableEq, Repr

/-- Outcome of `client.insert_rows_json`: a returned per-row error list
(empty on success) or a raised exception. -/
inductive InsertOutcome where
  | returns (errs : List String)
  | raises (msg : String)
deriving DecidableEq, Repr

/-- Oracle for the external `google-cloud-bigquery` client held by
`BigQueryClient`: the outcome of the DELETE query job and of
`insert_rows_json`, as functions of the call arguments. -/
structure BQEnv where
  deleteQuery : String → PyVal → Except String Unit
  insertOutcome : String → List Row → InsertOutcome

/-- Result dict of `insert_rows` / `load_report`; keys that a branch does
not set are `none`. -/
structure LoadResult where
  status : String
  message : String
  rows_inserted : Nat
  errors : Option (List String) := none
  table : Option String := none
deriving DecidableEq, Repr

/-- `_get_table_ref` (bigquery_client.py lines 42-44). -/
def table_ref (project_id dataset_id table_name : String) : String :=
  project_id ++ "." ++ dataset_id ++ "." ++ table_name

/-- `delete_partition` (bigquery_client.py lines 192-217): run the DELETE
query, wait for it, return `True`; any exception is caught, logged and
turned into `False`.  The issued query is recorded in the trace. -/
def delete_partition (env : BQEnv) (project_id dataset_id table_name : String)
    (partition_date : PyVal) : Bool × List SinkCall :=
  let ref := table_ref project_id dataset_id table_name
  match env.deleteQuery ref partition_date with
  | .ok _ => (true, [.deleteCall ref partition_date])
  | .error _ => (false, [.deleteCall ref partition_date])

/-- `insert_rows` (bigquery_client.py lines 219-264). -/
def insert_rows (env : BQEnv) (project_id dataset_id table_name : String)
    (rows : List Row) : LoadResult × List SinkCall :=
  if rows.isEmpty then
    ({ status := "warning", message := "Nenhuma linha para inserir",
       rows_inserted := 0 }, [])
  else
    let ref := table_ref project_id dataset_id table_name
    match env.insertOutcome ref rows with
    | .returns errs =>
        if errs.isEmpty then
          ({ status := "success",
             message := "Inseridas " ++ toString rows.length ++ " linhas",
             rows_inserted := rows.length }, [.insertCall ref rows])
        else
          ({ status := "error",
             message := "Erros na insercao: " ++ toString errs,
             rows_inserted := 0, errors := some errs }, [.insertCall ref rows])
    | .raises msg =>
        ({ status := "error", message := msg, rows_inserted := 0 },
         [.insertCall ref rows])

/-- `load_report` (bigquery_client.py lines 266-303): empty data returns
the warning dict without touching the client; otherwise optionally delete
the partition of the first row's `date` (result discarded), then insert,
then tag the result with the table name. -/
def load_report (env : BQEnv) (project_id dataset_id table_name : String)
    (data : List Row) (replace_partition : Bool) : LoadResult × List SinkCall :=
  match data with
  | [] =>
      ({ status := "warning", message := "Nenhum dado para carregar",
         rows_inserted := 0, table := some table_name }, [])
  | first :: _ =>
      let delTrace : List SinkCall :=
        if replace_partition then
          match first.lookup "date" with
          | some pd =>
              if pyTruthy pd then
                (delete_partition env project_id dataset_id table_name pd).2
              else []
          | none => []
        else []
      let ins := insert_rows env project_id dataset_id table_name data
      ({ ins.1 with table := some table_name }, delTrace ++ ins.2)

end Campaign

/-! ## google-analytics-4 BigQuery module (bigquery.py) -/

namespace GBQ

/-- A schema field of the generic module: dict entries `name`, `type`,
`description` (no `mode`). -/
structure GField where
  name : String
  type : String
  description : String
deriving DecidableEq, Repr

/-- `BASE_SCHEMA` (bigquery.py lines 28-32). -/
def BASE_SCHEMA : List GField :=
  [⟨"date", "DATE", "Data do registro"⟩,
   ⟨"property_id", "STRING", "ID da propriedade GA4"⟩,
   ⟨"extraction_timestamp", "TIMESTAMP", "Timestamp da extração"⟩]

/-- The `report_data` dict consumed by the load functions: `table_name`
(possibly absent), `report_name` (defaulted to `""` by `.get`), `data`
(defaulted to `[]`). -/
structure ReportData where
  table_name : Option String
  report_name : String := ""
  data : List Row
deriving DecidableEq, Repr

/-- The field-type inference inside `get_schema_for_report` (bigquery.py
lines 269-281), transcribed branch for branch:

    field_type = "STRING"
    if key == "date":                      field_type = "DATE"
    elif key == "extraction_timestamp":    field_type = "TIMESTAMP"
    elif isinstance(value, int):           field_type = "INTEGER"
    elif isinstance(value, float):         field_type = "FLOAT"
    elif isinstance(value, bool):          field_type = "BOOLEAN"

Note that CPython's `isinstance(value, int)` is true for `bool` values,
so the `BOOLEAN` branch is unreachable. -/
def inferFieldType (key : String) (value : PyVal) : String :=
  if key = "date" then "DATE"
  else if key = "extraction_timestamp" then "TIMESTAMP"
  else if isinstanceInt value then "INTEGER"
  else if isinstanceFloat value then "FLOAT"
  else if isinstanceBool value then "BOOLEAN"
  else "STRING"

/-- `get_schema_for_report` (bigquery.py lines 252-289): empty (or
missing) data falls back to `BASE_SCHEMA`, otherwise the first row's
items are typed by `inferFieldType` with empty descriptions. -/
def get_schema_for_report (rd : ReportData) : List GField :=
  match rd.data with
  | [] => BASE_SCHEMA
  | sample :: _ => sample.map (fun p => ⟨p.1, inferFieldType p.1 p.2, ""⟩)

/-- One BigQuery client call of this module. -/
inductive SinkCall where
  | getTable (table_ref : String)
  | createTable (table_ref : String) (schema : List GField)
  | deleteCall (table_ref : String) (partition_date : PyVal)
  | insertCall (table_ref : String) (rows : List Row)
deriving DecidableEq, Repr

/-- Oracle for the external BigQuery client of this module. -/
structure Env where
  getTableOk : String → Bool
  createOk : String → Bool
  deleteQuery : String → PyVal → Except String Unit
  insertOutcome : String → List Row → Campaign.InsertOutcome

/-- Result dict of the load/insert functions of this module; the
missing-`table_name` error dict carries neither `rows_inserted` nor
`table`, hence the `Option` fields. -/
structure LoadResult where
  status : String
  message : String
  rows_inserted : Option Nat := none
  errors : Option (List String) := none
  table : Option String := none
deriving DecidableEq, Repr

def table_ref (project_id dataset_id table_name : String) : String :=
  project_id ++ "." ++ dataset_id ++ "." ++ table_name

/-- `table_exists` (bigquery.py lines 39-58): `get_table` succeeding means
the table exists; any exception means it does not. -/
def table_exists (env : Env) (project_id dataset_id table_name : String) :
    Bool × List SinkCall :=
  let ref := table_ref project_id dataset_id table_name
  (env.getTableOk ref, [.getTable ref])

/-- `create_table` (bigquery.py lines 61-116): issue the create call;
exceptions are caught and reported as `False`. -/
def create_table (env : Env) (project_id dataset_id table_name : String)
    (schema : List GField) : Bool × List SinkCall :=
  let ref := table_ref project_id dataset_id table_name
  (env.createOk ref, [.createTable ref schema])

/-- `ensure_table_exists` (bigquery.py lines 119-147). -/
def ensure_table_exists (env : Env) (project_id dataset_id table_name : String)
    (schema : List GField) : Bool × List SinkCall :=
  let te := table_exists env project_id dataset_id table_name
  if te.1 then (true, te.2)
  else
    let ct := create_table env project_id dataset_id table_name schema
    (ct.1, te.2 ++ ct.2)

/-- `insert_rows` (bigquery.py lines 154-208); logic identical to the
campaign client's `insert_rows`. -/
def insert_rows (env : Env) (project_id dataset_id table_name : String)
    (rows : List Row) : LoadResult × List SinkCall :=
  if rows.isEmpty then
    ({ status := "warning", message := "Nenhuma linha para inserir",
       rows_inserted := some 0 }, [])
  else
    let ref := table_ref project_id dataset_id table_name
    match env.insertOutcome ref rows with
    | .returns errs =>
        if errs.isEmpty then
          ({ status := "success",
             message := "Inseridas " ++ toString rows.length ++ " linhas",
             rows_inserted := some rows.length }, [.insertCall ref rows])
        else
          ({ status := "error",
             message := "Erros na inserção: " ++ toString errs,
             rows_inserted := some 0, errors := some errs }, [.insertCall ref rows])
    | .raises msg =>
        ({ status := "error", message := msg, rows_inserted := some 0 },
         [.insertCall ref rows])

/-- `delete_partition` (bigquery.py lines 211-245). -/
def delete_partition (env : Env) (project_id dataset_id table_name : String)
    (partition_date : PyVal) : Bool × List SinkCall :=
  let ref := table_ref project_id dataset_id table_name
  match env.deleteQuery ref partition_date with
  | .ok _ => (true, [.deleteCall ref partition_date])
  | .error _ => (false, [.deleteCall ref partition_date])

/-- `load_report_to_bigquery` (bigquery.py lines 292-347): a falsy
`table_name` (absent or `""`) is an error dict before any client call;
empty data is the warning dict before any client call; otherwise infer
the schema, ensure the table, optionally delete the first row's date
partition (result discarded) and insert. -/
def load_report_to_bigquery (env : Env) (project_id dataset_id : String)
    (rd : ReportData) (replace_partition : Bool) : LoadResult × List SinkCall :=
  let errorResult : LoadResult × List SinkCall :=
    ({ status := "error",
       message := "table_name não encontrado no report_data" }, [])
  match rd.table_name with
  | none => errorResult
  | some t =>
      if t = "" then errorResult
      else
        match rd.data with
        | [] =>
            ({ status := "warning", message := "Nenhum dado para carregar",
               table := some t, rows_inserted := some 0 }, [])
        | first :: _ =>
            let schema := get_schema_for_report rd
            let ens := ensure_table_exists env project_id dataset_id t schema
            let delTrace : List SinkCall :=
              if replace_partition then
                match first.lookup "date" with
                | some pd =>
                    if pyTruthy pd then
                      (delete_partition env project_id dataset_id t pd).2
                    else []
                | none => []
              else []
            let ins := insert_rows env project_id dataset_id t rd.data
            ({ ins.1 with table := some t }, ens.2 ++ delTrace ++ ins.2)

end GBQ

/-- Environment whose DELETE query always fails and whose insert succeeds. -/
def envDeleteFails : Campaign.BQEnv :=
  ⟨fun _ _ => .error "delete failed", fun _ _ => .returns []⟩

/-- Environment whose DELETE query and insert both succeed. -/
def envDeleteOk : Campaign.BQEnv :=
  ⟨fun _ _ => .ok (), fun _ _ => .returns []⟩

/-- A do-nothing campaign environment for the C5 witness. -/
def envC5c : Campaign.BQEnv := ⟨fun _ _ => .ok (), fun _ _ => .returns []⟩

/-- A do-nothing generic environment for the C5 witness. -/
def envC5g : GBQ.Env :=
  ⟨fun _ => true, fun _ => true, fun _ _ => .ok (), fun _ _ => .returns []⟩

/-- Campaign environment whose insert raises, for the C10 witness. -/
def envC10c : Campaign.BQEnv :=
  ⟨fun _ _ => .ok (), fun _ _ => .raises "connection reset"⟩

/-- Generic environment whose insert raises, for the C10 witness. -/
def envC10g : GBQ.Env :=
  ⟨fun _ => true, fun _ => true, fun _ _ => .ok (),
   fun _ _ => .raises "connection reset"⟩

/-- Batch environment for the C4 witness: `CAMPAIGN` extracts cleanly,
every other key raises. -/
def envC4 : ExtractEnv :=
  ⟨fun k =>
    if k = "CAMPAIGN" then
      .ok ⟨"CAMPAIGN", "GA4_DIM_CAMPAIGN", "Dimensoes de campanhas de marketing",
        0, [], "2024-01-15", "2024-01-15", "123", "T"⟩
    else .error "GA4 API error", "2024-01-15"⟩

/-- Spec-side definition for C6 (from the spec's words, not from the
code): the entity id as "the property id with any `properties/` prefix
stripped".  The code instead removes every occurrence of the substring
(`str.replace`, embedded as `pyReplace`), and does so twice for the
session key. -/
def stripLeadingProperties (s : String) : String :=
  if ("properties/").toList.isPrefixOf s.toList
  then String.mk (s.toList.drop 11) else s

/-- The four ECOMMERCE dimensions whose normalized names do not match
their declared columns: `camel_to_snake "itemCategoryN" =
"item_categoryN"` (no underscore before the digit), while the declared
column is `ITEM_CATEGORY_N`. -/
def ECOMMERCE_MISNAMED : List String :=
  ["itemCategory2", "itemCategory3", "itemCategory4", "itemCategory5"]

/-! ## Lemmas and claim theorems -/
theorem dictInsert_lookup_eq {α : Type} (d : PyDict α) (k : String) (v : α) :
    (dictInsert d k v).lookup k = some v := by
  induction d with
  | nil => simp [dictInsert, List.lookup]
  | cons hd tl ih =>
    by_cases h : hd.1 = k
    · simp [dictInsert, h, List.lookup]
    · have hne : (k == hd.1) = false := by
        simp only [beq_eq_false_iff_ne, ne_eq]
        exact fun h' => h h'.symm
      simp [dictInsert, h, List.lookup, hne, ih]

theorem dictInsert_lookup_ne {α : Type} (d : PyDict α) (k k' : String) (v : α)
    (h : k' ≠ k) : (dictInsert d k' v).lookup k = d.lookup k := by
  have hkk : (k == k') = false := by
    simp only [beq_eq_false_iff_ne, ne_eq]
    exact fun h' => h h'.symm
  induction d with
  | nil => simp [dictInsert, List.lookup, hkk]
  | cons hd tl ih =>
    by_cases h2 : hd.1 = k'
    · subst h2
      simp [dictInsert, List.lookup, hkk]
    · simp only [dictInsert, h2, if_false]
      by_cases h3 : hd.1 = k
      · simp [List.lookup, h3]
      · have hne : (k == hd.1) = false := by
          simp only [beq_eq_false_iff_ne, ne_eq]
          exact fun h' => h3 h'.symm
        simp [List.lookup, hne, ih]

theorem dictUpdate_lookup_of_not_mem {α : Type} (base other : PyDict α)
    (k : String) (h : other.lookup k = none) :
    (dictUpdate base other).lookup k = base.lookup k := by
  induction other generalizing base with
  | nil => simp [dictUpdate]
  | cons hd tl ih =>
    simp only [List.lookup] at h
    by_cases hk : hd.1 = k
    · rw [show (k == hd.1) = true by simp [hk]] at h
      simp at h
    · have hne : (k == hd.1) = false := by
        simp only [beq_eq_false_iff_ne, ne_eq]
        exact fun h' => hk h'.symm
      rw [hne] at h
      have hstep : (dictUpdate base (hd :: tl)) = dictUpdate (dictInsert base hd.1 hd.2) tl := by
        simp [dictUpdate]
      rw [hstep, ih _ h, dictInsert_lookup_ne _ _ _ _ hk]

theorem lookup_eq_none_of_not_mem_keys {α : Type} (d : PyDict α) (k : String)
    (h : k ∉ d.map Prod.fst) : d.lookup k = none := by
  induction d with
  | nil => rfl
  | cons hd tl ih =>
    simp only [List.map, List.mem_cons, not_or] at h
    have hne : (k == hd.1) = false := by
      simp only [beq_eq_false_iff_ne, ne_eq]
      exact h.1
    simp [List.lookup, hne, ih h.2]

theorem dictUpdate_lookup_of_mem {α : Type} (base other : PyDict α)
    (k : String) (v : α) (hnd : (other.map Prod.fst).Nodup)
    (h : other.lookup k = some v) :
    (dictUpdate base other).lookup k = some v := by
  induction other generalizing base with
  | nil => simp [List.lookup] at h
  | cons hd tl ih =>
    have hstep : (dictUpdate base (hd :: tl)) = dictUpdate (dictInsert base hd.1 hd.2) tl := by
      simp [dictUpdate]
    simp only [List.map, List.nodup_cons] at hnd
    simp only [List.lookup] at h
    by_cases hk : hd.1 = k
    · rw [show (k == hd.1) = true by simp [hk]] at h
      simp only at h
      injection h with h
      subst h
      have htl : tl.lookup k = none := by
        apply lookup_eq_none_of_not_mem_keys
        rw [← hk]
        exact hnd.1
      rw [hstep, dictUpdate_lookup_of_not_mem _ _ _ htl, ← hk,
        dictInsert_lookup_eq]
    · have hne : (k == hd.1) = false := by
        simp only [beq_eq_false_iff_ne, ne_eq]
        exact fun h' => hk h'.symm
      rw [hne] at h
      rw [hstep, ih _ hnd.2 h]

/-! ### Normalizer lemmas -/

theorem asciiLower_not_upper (c : Char) : isUpperAZ (asciiLower c) = false := by
  unfold asciiLower
  by_cases hu : isUpperAZ c = true
  · rw [if_pos hu]
    have hb : 65 ≤ c.toNat ∧ c.toNat ≤ 90 := by simpa [isUpperAZ] using hu
    obtain ⟨h1, h2⟩ := hb
    generalize c.toNat = m at h1 h2
    interval_cases m <;> decide
  · rw [if_neg hu]
    simpa using hu

theorem asciiLower_of_not_upper {c : Char} (h : isUpperAZ c = false) :
    asciiLower c = c := by
  unfold asciiLower
  rw [if_neg (by simp [h])]

theorem asciiLower_eq_colon {c : Char} (h : asciiLower c = ':') : c = ':' := by
  unfold asciiLower at h
  by_cases hu : isUpperAZ c = true
  · rw [if_pos hu] at h
    have hb : 65 ≤ c.toNat ∧ c.toNat ≤ 90 := by simpa [isUpperAZ] using hu
    obtain ⟨h1, h2⟩ := hb
    exfalso
    generalize c.toNat = m at h1 h2 h
    interval_cases m <;> exact absurd h (by decide)
  · rw [if_neg hu] at h
    exact h

theorem map_asciiLower_of_noUpper :
    ∀ l : List Char, (∀ c ∈ l, isUpperAZ c = false) → l.map asciiLower = l := by
  intro l h
  induction l with
  | nil => rfl
  | cons hd tl ih =>
    simp only [List.map, List.cons.injEq]
    exact ⟨asciiLower_of_not_upper (h hd (by simp)),
      ih (fun c hc => h c (by simp [hc]))⟩

theorem sub1Go_of_noUpper :
    ∀ (f : Nat) (l : List Char), (∀ c ∈ l, isUpperAZ c = false) →
      sub1Go f l = l := by
  intro f
  induction f with
  | zero => intro l _; rfl
  | succ n ih =>
    intro l h
    match l with
    | [] => rfl
    | [c] => rfl
    | [c1, c2] => rfl
    | c1 :: c2 :: c3 :: rest =>
      have h2 : isUpperAZ c2 = false := h c2 (by simp)
      rw [sub1Go, if_neg (by simp [h2]),
        ih (c2 :: c3 :: rest) (fun c hc => h c (by simp at hc ⊢; tauto))]

theorem sub2Go_of_noUpper :
    ∀ (f : Nat) (l : List Char), (∀ c ∈ l, isUpperAZ c = false) →
      sub2Go f l = l := by
  intro f
  induction f with
  | zero => intro l _; rfl
  | succ n ih =>
    intro l h
    match l with
    | [] => rfl
    | [c] => rfl
    | c1 :: c2 :: rest =>
      have h2 : isUpperAZ c2 = false := h c2 (by simp)
      rw [sub2Go, if_neg (by simp [h2]),
        ih (c2 :: rest) (fun c hc => h c (by simp at hc ⊢; tauto))]

theorem mem_of_mem_sub1Go :
    ∀ (f : Nat) (l : List Char) (c : Char), c ∈ sub1Go f l → c ∈ l ∨ c = '_' := by
  intro f
  induction f with
  | zero => intro l c h; exact Or.inl h
  | succ n ih =>
    intro l c h
    match l with
    | [] => exact Or.inl h
    | [c1] => exact Or.inl h
    | [c1, c2] => exact Or.inl h
    | c1 :: c2 :: c3 :: rest =>
      rw [sub1Go] at h
      by_cases hcond : c1 ≠ '\n' ∧ isUpperAZ c2 = true ∧ isLowerAZ c3 = true
      · rw [if_pos hcond] at h
        have hsplit := List.takeWhile_append_dropWhile (p := isLowerAZ) (l := c3 :: rest)
        simp only [List.mem_cons, List.mem_append] at h
        rcases h with h | h | h | h | h
        · left; simp [h]
        · right; exact h
        · left; simp [h]
        · left
          have : c ∈ c3 :: rest := by
            rw [← hsplit]; exact List.mem_append_left _ h
          simp only [List.mem_cons] at this ⊢; tauto
        · rcases ih _ _ h with h2 | h2
          · left
            have : c ∈ c3 :: rest := by
              rw [← hsplit]; exact List.mem_append_right _ h2
            simp only [List.mem_cons] at this ⊢; tauto
          · right; exact h2
      · rw [if_neg hcond] at h
        simp only [List.mem_cons] at h
        rcases h with h | h
        · left; simp [h]
        · rcases ih _ _ h with h2 | h2
          · left; simp only [List.mem_cons] at h2 ⊢; tauto
          · right; exact h2

theorem mem_sub1Go_of_mem :
    ∀ (f : Nat) (l : List Char) (c : Char), c ∈ l → c ∈ sub1Go f l := by
  intro f
  induction f with
  | zero => intro l c h; exact h
  | succ n ih =>
    intro l c h
    match l with
    | [] => exact h
    | [c1] => exact h
    | [c1, c2] => exact h
    | c1 :: c2 :: c3 :: rest =>
      rw [sub1Go]
      by_cases hcond : c1 ≠ '\n' ∧ isUpperAZ c2 = true ∧ isLowerAZ c3 = true
      · rw [if_pos hcond]
        have hsplit := List.takeWhile_append_dropWhile (p := isLowerAZ) (l := c3 :: rest)
        simp only [List.mem_cons, List.mem_append]
        simp only [List.mem_cons] at h
        rcases h with h | h | h
        · tauto
        · tauto
        · have : c ∈ (c3 :: rest).takeWhile isLowerAZ ++ (c3 :: rest).dropWhile isLowerAZ := by
            rw [hsplit]; simp [List.mem_cons, h]
          rcases List.mem_append.mp this with h2 | h2
          · tauto
          · have := ih _ _ h2
            tauto
      · rw [if_neg hcond]
        simp only [List.mem_cons] at h ⊢
        rcases h with h | h
        · tauto
        · have := ih (c2 :: c3 :: rest) c (by simp only [List.mem_cons]; tauto)
          tauto

theorem mem_of_mem_sub2Go :
    ∀ (f : Nat) (l : List Char) (c : Char), c ∈ sub2Go f l → c ∈ l ∨ c = '_' := by
  intro f
  induction f with
  | zero => intro l c h; exact Or.inl h
  | succ n ih =>
    intro l c h
    match l with
    | [] => exact Or.inl h
    | [c1] => exact Or.inl h
    | c1 :: c2 :: rest =>
      rw [sub2Go] at h
      by_cases hcond : (isLowerAZ c1 = true ∨ isDigit09 c1 = true) ∧ isUpperAZ c2 = true
      · rw [if_pos hcond] at h
        simp only [List.mem_cons] at h
        rcases h with h | h | h | h
        · left; simp [h]
        · right; exact h
        · left; simp [h]
        · rcases ih _ _ h with h2 | h2
          · left; simp only [List.mem_cons] at h2 ⊢; tauto
          · right; exact h2
      · rw [if_neg hcond] at h
        simp only [List.mem_cons] at h
        rcases h with h | h
        · left; simp [h]
        · rcases ih _ _ h with h2 | h2
          · left; simp only [List.mem_cons] at h2 ⊢; tauto
          · right; exact h2

theorem mem_sub2Go_of_mem :
    ∀ (f : Nat) (l : List Char) (c : Char), c ∈ l → c ∈ sub2Go f l := by
  intro f
  induction f with
  | zero => intro l c h; exact h
  | succ n ih =>
    intro l c h
    match l with
    | [] => exact h
    | [c1] => exact h
    | c1 :: c2 :: rest =>
      rw [sub2Go]
      simp only [List.mem_cons] at h
      by_cases hcond : (isLowerAZ c1 = true ∨ isDigit09 c1 = true) ∧ isUpperAZ c2 = true
      · rw [if_pos hcond]
        simp only [List.mem_cons]
        rcases h with h | h | h
        · tauto
        · tauto
        · have := ih rest c h
          tauto
      · rw [if_neg hcond]
        simp only [List.mem_cons]
        rcases h with h | h
        · tauto
        · have := ih (c2 :: rest) c (by simp only [List.mem_cons]; tauto)
          tauto

theorem toList_camel (s : String) :
    (camel_to_snake s).toList = (sub2 (sub1 s.toList)).map asciiLower := rfl

theorem noUpper_camel (s : String) :
    ∀ c ∈ (camel_to_snake s).toList, isUpperAZ c = false := by
  intro c hc
  rw [toList_camel] at hc
  obtain ⟨c', _, hc'⟩ := List.mem_map.mp hc
  rw [← hc']
  exact asciiLower_not_upper c'

theorem colon_mem_camel_iff (s : String) :
    ':' ∈ (camel_to_snake s).toList ↔ ':' ∈ s.toList := by
  rw [toList_camel]
  constructor
  · intro h
    obtain ⟨c', hc', heq⟩ := List.mem_map.mp h
    rw [asciiLower_eq_colon heq] at hc'
    rcases mem_of_mem_sub2Go _ _ _ hc' with h2 | h2
    · rcases mem_of_mem_sub1Go _ _ _ h2 with h3 | h3
      · exact h3
      · exact absurd h3 (by decide)
    · exact absurd h2 (by decide)
  · intro h
    have h1 := mem_sub1Go_of_mem (s.toList.length) _ _ h
    have h2 := mem_sub2Go_of_mem ((sub1 s.toList).length) _ _ h1
    have : asciiLower ':' = ':' := by decide
    exact this ▸ List.mem_map_of_mem asciiLower h2

theorem hasColon_camel (s : String) : hasColon (camel_to_snake s) = hasColon s := by
  unfold hasColon
  show List.elem ':' (camel_to_snake s).toList = List.elem ':' s.toList
  by_cases h : ':' ∈ s.toList
  · rw [List.elem_iff.mpr h, List.elem_iff.mpr ((colon_mem_camel_iff s).mpr h)]
  · have h1 : List.elem ':' (camel_to_snake s).toList = false := by
      rw [Bool.eq_false_iff]
      intro hc
      exact h ((colon_mem_camel_iff s).mp (List.elem_iff.mp hc))
    have h2 : List.elem ':' s.toList = false := by
      rw [Bool.eq_false_iff]
      intro hc
      exact h (List.elem_iff.mp hc)
    rw [h1, h2]

/-! ## Claim theorems -/

/-- C1 (code bug): the spec says a sample field holding a Python `bool` is
typed `BOOLEAN` by schema inference, and the code indeed contains a
`BOOLEAN` branch — but CPython's `isinstance(value, int)` is true for
`bool` values and the `INTEGER` branch runs first, so a boolean sample is
typed `INTEGER` and the `BOOLEAN` branch is unreachable.  This theorem
evaluates the embedded inference at the failing input (a sample row with
field `"flag"` holding `True`), and checks the remaining branches of the
claimed typing rule on representative inputs. -/
theorem C1_bool_sample_typed_integer :
    GBQ.inferFieldType "flag" (PyVal.pyBool true) = "INTEGER"
    ∧ GBQ.get_schema_for_report ⟨some "tbl", "", [[("flag", PyVal.pyBool true)]]⟩
        = [⟨"flag", "INTEGER", ""⟩]
    ∧ ("INTEGER" : String) ≠ "BOOLEAN"
    ∧ GBQ.inferFieldType "date" (PyVal.pyStr "2024-01-15") = "DATE"
    ∧ GBQ.inferFieldType "extraction_timestamp" (PyVal.pyStr "x") = "TIMESTAMP"
    ∧ GBQ.inferFieldType "sessions" (PyVal.pyInt 3) = "INTEGER"
    ∧ GBQ.inferFieldType "rate" (PyVal.pyFloat (mkRat 1 2)) = "FLOAT"
    ∧ GBQ.inferFieldType "name" (PyVal.pyStr "x") = "STRING"
    ∧ GBQ.get_schema_for_report ⟨some "tbl", "", []⟩ = GBQ.BASE_SCHEMA := by
  decide

/-- C8: the field normalizer is idempotent on every string:
`camel_to_snake (camel_to_snake s) = camel_to_snake s`.  The output of
`camel_to_snake` contains no ASCII uppercase letter, so neither
substitution pass can match on it and lowering is the identity. -/
theorem C8_camel_to_snake_idempotent (s : String) :
    camel_to_snake (camel_to_snake s) = camel_to_snake s := by
  have hno := noUpper_camel s
  show String.mk ((sub2 (sub1 ((camel_to_snake s).toList))).map asciiLower)
      = camel_to_snake s
  rw [sub1, sub1Go_of_noUpper _ _ hno, sub2, sub2Go_of_noUpper _ _ hno,
    map_asciiLower_of_noUpper _ hno]
  rfl

/-- C8 witness: idempotence at a concrete vendor field name. -/
theorem C8_witness :
    camel_to_snake (camel_to_snake "sessionCampaignId")
      = camel_to_snake "sessionCampaignId" :=
  C8_camel_to_snake_idempotent "sessionCampaignId"

/-- C2: the metric coercion parses values containing `'.'` as floats and
the rest as integers, keeps the raw string verbatim when the parse fails,
and always returns one of those three shapes (the `ValueError` of a
failed parse is caught inside the function, so it never escapes);
`coerce "12" = 12`, `coerce "12.5" = 12.5`, `coerce "N/A" = "N/A"`. -/
theorem C2_metric_coercion_never_raises (s : String) :
    ((∃ q, coerceMetricValue s = .pyFloat q) ∨ (∃ n, coerceMetricValue s = .pyInt n)
        ∨ coerceMetricValue s = .pyStr s)
    ∧ (s.toList.contains '.' = true →
        (∃ q, pyFloatOfString s = some q ∧ coerceMetricValue s = .pyFloat q)
        ∨ (pyFloatOfString s = none ∧ coerceMetricValue s = .pyStr s))
    ∧ (s.toList.contains '.' = false →
        (∃ n, pyIntOfString s = some n ∧ coerceMetricValue s = .pyInt n)
        ∨ (pyIntOfString s = none ∧ coerceMetricValue s = .pyStr s))
    ∧ coerceMetricValue "12" = .pyInt 12
    ∧ coerceMetricValue "12.5" = .pyFloat (25 / 2 : Rat)
    ∧ coerceMetricValue "N/A" = .pyStr "N/A" := by
  refine ⟨?_, ?_, ?_, by decide, ?_, by decide⟩
  · by_cases hdot : '.' ∈ s.data
    · rcases hq : pyFloatOfString s with _ | q
      · right; right; simp [coerceMetricValue, hdot, hq]
      · left; exact ⟨q, by simp [coerceMetricValue, hdot, hq]⟩
    · rcases hn : pyIntOfString s with _ | n
      · right; right; simp [coerceMetricValue, hdot, hn]
      · right; left; exact ⟨n, by simp [coerceMetricValue, hdot, hn]⟩
  · intro hdot
    have hmem : '.' ∈ s.data := by simpa using hdot
    rcases hq : pyFloatOfString s with _ | q
    · right; exact ⟨rfl, by simp [coerceMetricValue, hmem, hq]⟩
    · left; exact ⟨q, rfl, by simp [coerceMetricValue, hmem, hq]⟩
  · intro hdot
    have hmem : '.' ∉ s.data := by
      intro hc
      have h2 : s.toList.contains '.' = true := List.elem_iff.mpr hc
      rw [hdot] at h2
      exact Bool.false_ne_true h2
    rcases hn : pyIntOfString s with _ | n
    · right; exact ⟨rfl, by simp [coerceMetricValue, hmem, hn]⟩
    · left; exact ⟨n, rfl, by simp [coerceMetricValue, hmem, hn]⟩
  · have h1 : coerceMetricValue "12.5" = .pyFloat (mkRat 25 2) := by decide
    have h2 : (mkRat 25 2 : Rat) = 25 / 2 := by norm_num [mkRat, Rat.normalize]
    rw [h1, h2]

/-- C2 witness: the float branch at the concrete input `"7.5"`. -/
theorem C2_witness :
    (∃ q, pyFloatOfString "7.5" = some q ∧ coerceMetricValue "7.5" = .pyFloat q)
    ∨ (pyFloatOfString "7.5" = none ∧ coerceMetricValue "7.5" = .pyStr "7.5") :=
  (C2_metric_coercion_never_raises "7.5").2.1 (by decide)

/-- C3: a partition-delete failure is reported only as a boolean `False`
return (the exception is caught inside `delete_partition`), and
`load_report` still issues the insert: the insert call is in the trace
for every environment (in particular ones whose DELETE query fails), and
the returned load result does not depend on the delete outcome at all —
two environments agreeing on the insert outcome produce identical
results. -/
theorem C3_delete_failure_nonfatal (env env' : Campaign.BQEnv)
    (p d t : String) (data : List Row) (first : Row) (rest : List Row)
    (hdata : data = first :: rest)
    (hins : env'.insertOutcome = env.insertOutcome) :
    Campaign.SinkCall.insertCall (Campaign.table_ref p d t) data
        ∈ (Campaign.load_report env p d t data true).2
    ∧ (Campaign.load_report env' p d t data true).1
        = (Campaign.load_report env p d t data true).1
    ∧ ∀ pd, ((Campaign.delete_partition env p d t pd).1 = false
        ↔ ∃ msg, env.deleteQuery (Campaign.table_ref p d t) pd = .error msg) := by
  subst hdata
  refine ⟨?_, ?_, ?_⟩
  · rcases houtcome : env.insertOutcome (Campaign.table_ref p d t) (first :: rest)
        with errs | msg
    · by_cases herr : errs.isEmpty
      · simp [Campaign.load_report, Campaign.insert_rows, houtcome, herr]
      · simp [Campaign.load_report, Campaign.insert_rows, houtcome, herr]
    · simp [Campaign.load_report, Campaign.insert_rows, houtcome]
  · simp only [Campaign.load_report, Campaign.insert_rows, hins]
  · intro pd
    rcases h : env.deleteQuery (Campaign.table_ref p d t) pd with _ | msg
    · simp [Campaign.delete_partition, h]
    · simp [Campaign.delete_partition, h]

/-- C3 witness: at a concrete one-row load, the load result under a
failing delete equals the load result under a succeeding delete. -/
theorem C3_witness :
    (Campaign.load_report envDeleteFails "p" "d" "t"
        [[("date", PyVal.pyStr "2024-01-15")]] true).1
      = (Campaign.load_report envDeleteOk "p" "d" "t"
        [[("date", PyVal.pyStr "2024-01-15")]] true).1 :=
  (C3_delete_failure_nonfatal envDeleteOk envDeleteFails "p" "d" "t"
    [[("date", PyVal.pyStr "2024-01-15")]] [("date", PyVal.pyStr "2024-01-15")] []
    rfl rfl).2.1

/-- C5: when the source produced zero rows, both load functions return the
warning dict with `rows_inserted = 0` and an empty call trace — no delete
and no insert is issued against BigQuery. -/
theorem C5_zero_rows_warning_no_sink_calls (cenv : Campaign.BQEnv)
    (genv : GBQ.Env) (p d t rn : String) (rp rp2 : Bool) (ht : t ≠ "") :
    Campaign.load_report cenv p d t [] rp
      = ({ status := "warning", message := "Nenhum dado para carregar",
           rows_inserted := 0, table := some t }, [])
    ∧ GBQ.load_report_to_bigquery genv p d ⟨some t, rn, []⟩ rp2
      = ({ status := "warning", message := "Nenhum dado para carregar",
           rows_inserted := some 0, table := some t }, []) := by
  constructor
  · rfl
  · simp [GBQ.load_report_to_bigquery, ht]

/-- C5 witness: the empty-data load at concrete arguments. -/
theorem C5_witness :
    Campaign.load_report envC5c "p" "d" "t" [] true
      = ({ status := "warning", message := "Nenhum dado para carregar",
           rows_inserted := 0, table := some "t" }, [])
    ∧ GBQ.load_report_to_bigquery envC5g "p" "d" ⟨some "t", "r", []⟩ true
      = ({ status := "warning", message := "Nenhum dado para carregar",
           rows_inserted := some 0, table := some "t" }, []) :=
  C5_zero_rows_warning_no_sink_calls envC5c envC5g "p" "d" "t" "r" true true
    (by decide)

/-- C10: both `insert_rows` implementations are total with a structured
trichotomy: the empty input yields the `"warning"` dict with zero rows;
otherwise a clean client call yields `"success"` with the full row count,
and a returned per-row error list or a raised exception yields the
`"error"` dict with zero rows — the exception is converted, never
propagated. -/
theorem C10_insert_rows_trichotomy (cenv : Campaign.BQEnv) (genv : GBQ.Env)
    (p d t : String) (rows : List Row) :
    (((Campaign.insert_rows cenv p d t rows).1.status = "warning"
        ∧ (Campaign.insert_rows cenv p d t rows).1.rows_inserted = 0 ∧ rows = [])
      ∨ ((Campaign.insert_rows cenv p d t rows).1.status = "success"
        ∧ (Campaign.insert_rows cenv p d t rows).1.rows_inserted = rows.length
        ∧ cenv.insertOutcome (Campaign.table_ref p d t) rows = .returns [])
      ∨ ((Campaign.insert_rows cenv p d t rows).1.status = "error"
        ∧ (Campaign.insert_rows cenv p d t rows).1.rows_inserted = 0
        ∧ ((∃ es, es ≠ []
              ∧ cenv.insertOutcome (Campaign.table_ref p d t) rows = .returns es)
            ∨ (∃ msg,
              cenv.insertOutcome (Campaign.table_ref p d t) rows = .raises msg))))
    ∧ (((GBQ.insert_rows genv p d t rows).1.status = "warning"
        ∧ (GBQ.insert_rows genv p d t rows).1.rows_inserted = some 0 ∧ rows = [])
      ∨ ((GBQ.insert_rows genv p d t rows).1.status = "success"
        ∧ (GBQ.insert_rows genv p d t rows).1.rows_inserted = some rows.length
        ∧ genv.insertOutcome (GBQ.table_ref p d t) rows = .returns [])
      ∨ ((GBQ.insert_rows genv p d t rows).1.status = "error"
        ∧ (GBQ.insert_rows genv p d t rows).1.rows_inserted = some 0
        ∧ ((∃ es, es ≠ []
              ∧ genv.insertOutcome (GBQ.table_ref p d t) rows = .returns es)
            ∨ (∃ msg,
              genv.insertOutcome (GBQ.table_ref p d t) rows = .raises msg)))) := by
  constructor
  · rcases rows with _ | ⟨r, rs⟩
    · left
      refine ⟨rfl, rfl, rfl⟩
    · rcases houtcome : cenv.insertOutcome (Campaign.table_ref p d t) (r :: rs)
          with errs | msg
      · rcases errs with _ | ⟨e, es⟩
        · right; left
          refine ⟨?_, ?_, rfl⟩ <;>
            simp [Campaign.insert_rows, houtcome]
        · right; right
          refine ⟨?_, ?_, Or.inl ⟨e :: es, by simp, rfl⟩⟩ <;>
            simp [Campaign.insert_rows, houtcome]
      · right; right
        refine ⟨?_, ?_, Or.inr ⟨msg, rfl⟩⟩ <;>
          simp [Campaign.insert_rows, houtcome]
  · rcases rows with _ | ⟨r, rs⟩
    · left
      refine ⟨rfl, rfl, rfl⟩
    · rcases houtcome : genv.insertOutcome (GBQ.table_ref p d t) (r :: rs)
          with errs | msg
      · rcases errs with _ | ⟨e, es⟩
        · right; left
          refine ⟨?_, ?_, rfl⟩ <;>
            simp [GBQ.insert_rows, houtcome]
        · right; right
          refine ⟨?_, ?_, Or.inl ⟨e :: es, by simp, rfl⟩⟩ <;>
            simp [GBQ.insert_rows, houtcome]
      · right; right
        refine ⟨?_, ?_, Or.inr ⟨msg, rfl⟩⟩ <;>
          simp [GBQ.insert_rows, houtcome]

/-- C10 witness: the trichotomy instantiated at a concrete one-row insert
whose client call raises. -/
theorem C10_witness :
    (((Campaign.insert_rows envC10c "p" "d" "t" [[("a", PyVal.pyInt 1)]]).1.status = "warning"
        ∧ (Campaign.insert_rows envC10c "p" "d" "t" [[("a", PyVal.pyInt 1)]]).1.rows_inserted = 0
        ∧ ([[("a", PyVal.pyInt 1)]] : List Row) = [])
      ∨ ((Campaign.insert_rows envC10c "p" "d" "t" [[("a", PyVal.pyInt 1)]]).1.status = "success"
        ∧ (Campaign.insert_rows envC10c "p" "d" "t" [[("a", PyVal.pyInt 1)]]).1.rows_inserted
            = ([[("a", PyVal.pyInt 1)]] : List Row).length
        ∧ envC10c.insertOutcome (Campaign.table_ref "p" "d" "t") [[("a", PyVal.pyInt 1)]]
            = .returns [])
      ∨ ((Campaign.insert_rows envC10c "p" "d" "t" [[("a", PyVal.pyInt 1)]]).1.status = "error"
        ∧ (Campaign.insert_rows envC10c "p" "d" "t" [[("a", PyVal.pyInt 1)]]).1.rows_inserted = 0
        ∧ ((∃ es, es ≠ []
              ∧ envC10c.insertOutcome (Campaign.table_ref "p" "d" "t") [[("a", PyVal.pyInt 1)]]
                  = .returns es)
            ∨ (∃ msg,
              envC10c.insertOutcome (Campaign.table_ref "p" "d" "t") [[("a", PyVal.pyInt 1)]]
                  = .raises msg)))) :=
  (C10_insert_rows_trichotomy envC10c envC10g "p" "d" "t" [[("a", PyVal.pyInt 1)]]).1

theorem dictInsert_lookup_isSome {α : Type} (d : PyDict α) (k k' : String)
    (v : α) (h : (d.lookup k).isSome = true) :
    ((dictInsert d k' v).lookup k).isSome = true := by
  by_cases hk : k' = k
  · subst hk; rw [dictInsert_lookup_eq]; rfl
  · rw [dictInsert_lookup_ne _ _ _ _ hk]; exact h

theorem batch_foldl_counts (env : ExtractEnv) :
    ∀ (keys : List String) (acc : PyDict BatchEntry × BatchSummary),
      (keys.foldl (batchStep env) acc).2.successful
        + (keys.foldl (batchStep env) acc).2.failed
      = acc.2.successful + acc.2.failed + keys.length := by
  intro keys
  induction keys with
  | nil => intro acc; simp
  | cons hd tl ih =>
    intro acc
    rw [List.foldl_cons, ih]
    cases henv : env.extract hd <;> simp [batchStep, henv] <;> omega

theorem batch_foldl_total (env : ExtractEnv) :
    ∀ (keys : List String) (acc : PyDict BatchEntry × BatchSummary),
      (keys.foldl (batchStep env) acc).2.total_dimensions
        = acc.2.total_dimensions := by
  intro keys
  induction keys with
  | nil => intro acc; rfl
  | cons hd tl ih =>
    intro acc
    rw [List.foldl_cons, ih]
    cases henv : env.extract hd <;> simp [batchStep, henv]

theorem batch_foldl_mem (env : ExtractEnv) :
    ∀ (keys : List String) (acc : PyDict BatchEntry × BatchSummary) (k : String),
      (k ∈ keys ∨ (acc.1.lookup k).isSome = true) →
      (((keys.foldl (batchStep env) acc).1).lookup k).isSome = true := by
  intro keys
  induction keys with
  | nil =>
    intro acc k h
    rcases h with h | h
    · exact absurd h (List.not_mem_nil k)
    · simpa using h
  | cons hd tl ih =>
    intro acc k h
    rw [List.foldl_cons]
    apply ih
    by_cases hk : k = hd
    · right
      subst hk
      cases henv : env.extract k <;> simp [batchStep, henv, dictInsert_lookup_eq]
    · rcases h with h | h
      · rcases List.mem_cons.mp h with h2 | h2
        · exact absurd h2 hk
        · exact Or.inl h2
      · right
        cases henv : env.extract hd <;>
          simp only [batchStep, henv] <;>
          exact dictInsert_lookup_isSome _ _ _ _ h

/-- C4: the batch driver records one entry per attempted key — a later
key's failure never erases or prevents a sibling's entry — and its
summary counters satisfy `successful + failed = total attempted keys`
(which also equals the reported `total_dimensions`). -/
theorem C4_batch_covers_every_key (env : ExtractEnv) (pid : String)
    (sd ed : Option String) (dims : Option (List String)) :
    (∀ k ∈ resolve_keys dims,
        ((extract_all_dimensions env pid sd ed dims).extractions.lookup k).isSome
          = true)
    ∧ (extract_all_dimensions env pid sd ed dims).summary.successful
        + (extract_all_dimensions env pid sd ed dims).summary.failed
        = (resolve_keys dims).length
    ∧ (extract_all_dimensions env pid sd ed dims).summary.total_dimensions
        = (resolve_keys dims).length := by
  refine ⟨?_, ?_, ?_⟩
  · intro k hk
    exact batch_foldl_mem env _ _ k (Or.inl hk)
  · have h := batch_foldl_counts env (resolve_keys dims)
      ([], ⟨(resolve_keys dims).length, 0, 0, 0⟩)
    simpa [extract_all_dimensions] using h
  · have h := batch_foldl_total env (resolve_keys dims)
      ([], ⟨(resolve_keys dims).length, 0, 0, 0⟩)
    simpa [extract_all_dimensions] using h

/-- C4 witness: with one succeeding and one raising key, the raising key
still has an entry in the batch result. -/
theorem C4_witness :
    ((extract_all_dimensions envC4 "123" none none
        (some ["CAMPAIGN", "SOURCE_MEDIUM"])).extractions.lookup
          "SOURCE_MEDIUM").isSome = true :=
  (C4_batch_covers_every_key envC4 "123" none none
    (some ["CAMPAIGN", "SOURCE_MEDIUM"])).1 "SOURCE_MEDIUM" (by decide)

/-- C6 counterexample: for the property id `"aproperties/b"` (where
`"properties/"` occurs in the interior, not as a prefix), the enriched
row's session key is `"ab_2024-01-15"` — `str.replace` removed the
interior occurrence — while the claim's formula (prefix-stripping)
demands `"aproperties/b_2024-01-15"`. -/
theorem C6_counterexample :
    (enrich_row (pyReplace "aproperties/b" "properties/" "") "2024-01-15" "T"
        "ID1" []).lookup "ga4_session_key"
      = some (PyVal.pyStr "ab_2024-01-15")
    ∧ PyVal.pyStr "ab_2024-01-15"
      ≠ PyVal.pyStr (stripLeadingProperties "aproperties/b" ++ "_" ++ "2024-01-15") := by
  decide

/-- C6 (amended): the enriched row's session key is
`{e}_{partition_key}` where `e` is the property id with every occurrence
of `"properties/"` removed, twice in succession (once when the extractor
cleans the id, once inside `generate_session_key`); the partition key is
the row's `date` value if present, else the query's start date; and the
row carries the cleaned entity id, the partition date, the supplied fresh
identity key and the ingestion timestamp.  (For well-formed ids, where
`"properties/"` occurs at most as a leading prefix, the double removal
coincides with stripping the prefix, which is the claim's wording.)  The
hypotheses say that the raw row has no duplicate keys and does not itself
use the four bookkeeping key names, which holds for every row the
extractor builds. -/
theorem C6_enriched_row_bookkeeping (pid start exec tid : String) (row : Row)
    (hnd : (row.map Prod.fst).Nodup)
    (h1 : row.lookup "id" = none)
    (h2 : row.lookup "ga4_session_key" = none)
    (h3 : row.lookup "property_id" = none)
    (h4 : row.lookup "last_update" = none) :
    (enrich_row (pyReplace pid "properties/" "") start exec tid row).lookup
        "ga4_session_key"
      = some (.pyStr (pyReplace (pyReplace pid "properties/" "") "properties/" ""
          ++ "_" ++ pyToStr ((row.lookup "date").getD (.pyStr start))))
    ∧ (enrich_row (pyReplace pid "properties/" "") start exec tid row).lookup
        "property_id" = some (.pyStr (pyReplace pid "properties/" ""))
    ∧ (enrich_row (pyReplace pid "properties/" "") start exec tid row).lookup
        "id" = some (.pyStr tid)
    ∧ (enrich_row (pyReplace pid "properties/" "") start exec tid row).lookup
        "last_update" = some (.pyStr exec)
    ∧ (enrich_row (pyReplace pid "properties/" "") start exec tid row).lookup
        "date" = some ((row.lookup "date").getD (.pyStr start)) := by
  unfold enrich_row
  refine ⟨?_, ?_, ?_, ?_, ?_⟩
  · rw [dictUpdate_lookup_of_not_mem _ _ _ h2]
    rfl
  · rw [dictUpdate_lookup_of_not_mem _ _ _ h3]
    rfl
  · rw [dictUpdate_lookup_of_not_mem _ _ _ h1]
    rfl
  · rw [dictUpdate_lookup_of_not_mem _ _ _ h4]
    rfl
  · rcases hd : row.lookup "date" with _ | v
    · rw [dictUpdate_lookup_of_not_mem _ _ _ hd]
      rfl
    · rw [dictUpdate_lookup_of_mem _ _ _ _ hnd hd]
      simp

/-- C6 witness: the amended statement at a concrete extracted row. -/
theorem C6_witness :
    (enrich_row (pyReplace "properties/123" "properties/" "") "2024-01-10" "T"
        "ID1" [("date", PyVal.pyStr "2024-01-15"),
               ("campaign_name", PyVal.pyStr "c"),
               ("sessions", PyVal.pyInt 3)]).lookup "ga4_session_key"
      = some (.pyStr (pyReplace (pyReplace "properties/123" "properties/" "")
          "properties/" "" ++ "_"
          ++ pyToStr ((([("date", PyVal.pyStr "2024-01-15"),
               ("campaign_name", PyVal.pyStr "c"),
               ("sessions", PyVal.pyInt 3)] : Row).lookup "date").getD
              (.pyStr "2024-01-10")))) :=
  (C6_enriched_row_bookkeeping "properties/123" "2024-01-10" "T" "ID1"
    [("date", PyVal.pyStr "2024-01-15"),
     ("campaign_name", PyVal.pyStr "c"),
     ("sessions", PyVal.pyInt 3)]
    (by decide) (by decide) (by decide) (by decide) (by decide)).1

theorem mem_keys_dictInsert {α : Type} (d : PyDict α) (k' : String) (v : α) :
    ∀ k, k ∈ (dictInsert d k' v).map Prod.fst → k = k' ∨ k ∈ d.map Prod.fst := by
  induction d with
  | nil =>
    intro k h
    simp [dictInsert] at h
    exact Or.inl h
  | cons hd tl ih =>
    intro k h
    by_cases he : hd.1 = k'
    · simp [dictInsert, he] at h
      rcases h with h | h
      · exact Or.inl h
      · right; simp [h]
    · simp only [dictInsert, he, if_false, List.map, List.mem_cons] at h
      rcases h with h | h
      · right; simp [h]
      · rcases ih k h with h2 | h2
        · exact Or.inl h2
        · right; simp [h2]

theorem mem_keys_foldl_dictInsert {α β : Type} (f : β → String) (g : β → α) :
    ∀ (l : List β) (init : PyDict α) (k : String),
      k ∈ ((l.foldl (fun acc p => dictInsert acc (f p) (g p)) init).map Prod.fst) →
      (∃ p ∈ l, f p = k) ∨ k ∈ init.map Prod.fst := by
  intro l
  induction l with
  | nil => intro init k h; exact Or.inr h
  | cons hd tl ih =>
    intro init k h
    rw [List.foldl_cons] at h
    rcases ih _ k h with h2 | h2
    · left
      obtain ⟨p, hp, hf⟩ := h2
      exact ⟨p, by simp [hp], hf⟩
    · rcases mem_keys_dictInsert _ _ _ _ h2 with h3 | h3
      · left; exact ⟨hd, by simp, h3.symm⟩
      · exact Or.inr h3

/-- C7: dimension names containing a colon (vendor custom-dimension
syntax) are excluded before extraction: they are absent from the filtered
request list, and no column of a built row is keyed by their normalized
form — the normalizer is applied only to the surviving colon-free names
(the hypothesis states that metric names are colon-free, which holds for
every catalog entry). -/
theorem C7_colon_dimensions_excluded (dims metrics dimVals metVals : List String)
    (hm : ∀ m ∈ metrics, hasColon m = false) :
    (∀ d ∈ valid_dimensions_of dims, hasColon d = false)
    ∧ (∀ d ∈ dims, hasColon d = true → d ∉ valid_dimensions_of dims)
    ∧ (∀ d ∈ dims, hasColon d = true →
        (run_report_row (valid_dimensions_of dims) metrics dimVals metVals).lookup
          (camel_to_snake d) = none) := by
  have hvalid : ∀ d ∈ valid_dimensions_of dims, hasColon d = false := by
    intro d hd
    have h := List.mem_filter.mp hd
    simpa using h.2
  refine ⟨hvalid, ?_, ?_⟩
  · intro d _ hcolon hmem
    rw [hvalid d hmem] at hcolon
    exact Bool.false_ne_true hcolon
  · intro d _ hcolon
    apply lookup_eq_none_of_not_mem_keys
    intro hkey
    unfold run_report_row at hkey
    rcases mem_keys_foldl_dictInsert (fun (p : String × String) => camel_to_snake p.1)
        (fun (p : String × String) => coerceMetricValue p.2) _ _ _ hkey with h2 | h2
    · obtain ⟨⟨a, b⟩, hp, hf⟩ := h2
      have hpm : a ∈ metrics := (List.of_mem_zip hp).1
      have hnc : hasColon (camel_to_snake a) = false := by
        rw [hasColon_camel]; exact hm _ hpm
      rw [hf, hasColon_camel, hcolon] at hnc
      exact Bool.false_ne_true hnc.symm
    · rcases mem_keys_foldl_dictInsert (fun (p : String × String) => camel_to_snake p.1)
          (fun (p : String × String) => PyVal.pyStr p.2) _ _ _ h2 with h3 | h3
      · obtain ⟨⟨a, b⟩, hp, hf⟩ := h3
        have hpm : a ∈ valid_dimensions_of dims := (List.of_mem_zip hp).1
        have hnc : hasColon (camel_to_snake a) = false := by
          rw [hasColon_camel]; exact hvalid _ hpm
        rw [hf, hasColon_camel, hcolon] at hnc
        exact Bool.false_ne_true hnc.symm
      · simp at h3

/-- C7 witness: a colon dimension at concrete inputs is neither requested
nor present, in normalized form, among the built row's keys. -/
theorem C7_witness :
    (run_report_row (valid_dimensions_of ["date", "customEvent:foo"]) ["sessions"]
        ["20240115"] ["3"]).lookup (camel_to_snake "customEvent:foo") = none :=
  (C7_colon_dimensions_excluded ["date", "customEvent:foo"] ["sessions"]
    ["20240115"] ["3"] (by decide)).2.2 "customEvent:foo" (by decide) (by decide)

/-- C9 counterexample: `itemCategory2` is a declared ECOMMERCE dimension,
but its normalized form `item_category2` matches no column of the
declared schema (column names compared case-insensitively, since BigQuery
column names are case-insensitive and the schema declares them in upper
case): the schema declares `ITEM_CATEGORY_2` instead. -/
theorem C9_counterexample :
    ("ECOMMERCE", ECOMMERCE_SCHEMA) ∈ DIMENSION_SCHEMAS
    ∧ "itemCategory2" ∈ ECOMMERCE_SCHEMA.dimensions
    ∧ camel_to_snake "itemCategory2"
        ∉ ECOMMERCE_SCHEMA.schema_fields.map (fun f => asciiLowerStr f.name)
    ∧ camel_to_snake "itemCategory2" ≠ asciiLowerStr "ITEM_CATEGORY_2" := by
  decide

/-- C9 (amended): for every ReportSpec in the catalog, every declared
dimension and metric name other than the four `itemCategoryN` ECOMMERCE
dimensions appears, in `camel_to_snake`-normalized form, among the
declared schema's column names compared case-insensitively; and every
schema declares the four bookkeeping columns (identity key
`PK_{table}`, foreign key `GA4_SESSION_KEY`, partition key `DATE`,
ingestion timestamp `LAST_UPDATE`). -/
theorem C9_schema_completeness_amended :
    ∀ p ∈ DIMENSION_SCHEMAS,
      (∀ n ∈ p.2.dimensions ++ p.2.metrics, n ∉ ECOMMERCE_MISNAMED →
        camel_to_snake n ∈ p.2.schema_fields.map (fun f => asciiLowerStr f.name))
      ∧ ("PK_" ++ p.2.table_name) ∈ p.2.schema_fields.map SchemaField.name
      ∧ "GA4_SESSION_KEY" ∈ p.2.schema_fields.map SchemaField.name
      ∧ "DATE" ∈ p.2.schema_fields.map SchemaField.name
      ∧ "LAST_UPDATE" ∈ p.2.schema_fields.map SchemaField.name := by
  decide

/-- C9 witness: the amended statement at the CAMPAIGN spec and the
declared dimension `campaignId`. -/
theorem C9_witness :
    camel_to_snake "campaignId"
      ∈ CAMPAIGN_SCHEMA.schema_fields.map (fun f => asciiLowerStr f.name) :=
  ((C9_schema_completeness_amended ("CAMPAIGN", CAMPAIGN_SCHEMA) (by decide)).1
    "campaignId" (by decide) (by decide))

